import Mathlib

/-!
# Shallow embedding of the TON provider system core

This development embeds, in Lean, the core data model and operations of the
`ton_provider_system` TypeScript repository:

* the endpoint normalizer (`src/utils/endpoint.ts`, `normalizeV2Endpoint`),
* the health checker (`src/core/healthChecker.ts`: `testProvider`,
  `markDegraded`, `markOffline`) and `BaseProvider.parseMasterchainInfo`
  (`src/providers/base.ts`),
* the token-bucket rate limiter (`TokenBucketRateLimiter` in the rate-limiter
  part of `src/core/healthChecker.ts`),
* the provider selector (`ProviderSelector` in `src/core/manager.ts`:
  `getBestProvider`, `findBestProvider`, `scoreProvider`,
  `handleProviderFailure`, `setCustomEndpoint`, `createCustomProvider`),
* configuration resolution (`src/config/schema.ts`: `resolveKeyPlaceholder`,
  `resolveEndpoints`, `resolveProvider`),
* the manager facade (`ProviderManager.getEndpoint`, `reportError`).

Modelling conventions:

* JS strings are `List Char` (`Str`); `trim`, `endsWith`, `includes`,
  `toLowerCase`, `slice(0,-1)` and first-occurrence `replace` are embedded as
  list functions below.
* JS numbers are `ℚ` (timestamps `ℤ` in milliseconds); `Math.floor` is `⌊·⌋`,
  `Number.isInteger q` is `q.den = 1`.
* The WHATWG `new URL(s)` constructor used by `normalizeV2Endpoint` is
  modelled as an explicit function parameter
  `urlRoot : Str → Option Bool` (`none` = the constructor throws;
  `some b` = it succeeds and `b` says whether `url.pathname` is empty or
  `"/"`).  All theorems about the normalizer hold for every such parameter.
* `Math.log` in the selector's latency score is likewise passed as a
  parameter `jsLog : ℚ → ℚ`; no theorem below depends on its values.
* JS `Map`s keyed by strings become functions `Str → Option _`; the health
  checker's composite key `id + "-" + network` is kept as in the source.
* Async methods are embedded as pure state transformers; the wall-clock
  times observed at the `Date.now()` / `performance.now()` call sites are
  extra `ℤ`/`ℚ` arguments.
-/

/-! ## JS string primitives -/

/-- JS strings, as lists of characters. -/
abbrev Str := List Char

/-- `s.dropWhile isWhitespace`: the left half of JS `String.prototype.trim`. -/
def trimStart (s : Str) : Str := s.dropWhile Char.isWhitespace

/-- Remove trailing whitespace: the right half of JS `trim`. -/
def trimEnd (s : Str) : Str := (s.reverse.dropWhile Char.isWhitespace).reverse

/-- JS `s.trim()`. -/
def jsTrim (s : Str) : Str := trimEnd (trimStart s)

/-- JS `s.endsWith(suffix)`. -/
def jsEndsWith (s suf : Str) : Bool := suf.isSuffixOf s

/-- JS `s.includes(sub)`. -/
def jsIncludes (s sub : Str) : Bool := decide (sub <:+: s)

/-- JS `s.toLowerCase()` (ASCII case mapping suffices for the URLs involved). -/
def lowerStr (s : Str) : Str := s.map Char.toLower

/-- JS `s.replace(pat, repl)` with a *string* pattern: replaces only the
first occurrence of `pat` (if any). -/
def replaceFirst (pat repl : Str) : Str → Str
  | [] => if pat = [] then repl else []
  | c :: rest =>
    if pat.isPrefixOf (c :: rest) then repl ++ (c :: rest).drop pat.length
    else c :: replaceFirst pat repl rest

/-- JS `if (normalized.endsWith('/')) normalized = normalized.slice(0, -1)`. -/
def stripTrailSlash (s : Str) : Str :=
  if jsEndsWith s ['/'] then s.dropLast else s

/-! ## Endpoint normalizer (`src/utils/endpoint.ts`, `normalizeV2Endpoint`) -/

/-- `normalizeV2Endpoint` from `src/utils/endpoint.ts`.

`urlRoot` models the `new URL(normalized)` probe at the end of the function:
`none` = the constructor throws (not a valid URL, return as-is);
`some true` = success with `!url.pathname || url.pathname === '/'`;
`some false` = success with a non-trivial pathname. -/
def normalizeV2Endpoint (urlRoot : Str → Option Bool) (endpoint : Str) : Str :=
  let t := stripTrailSlash (jsTrim endpoint)
  if jsEndsWith (lowerStr t) "/jsonrpc".toList then t
  else if jsEndsWith t "/api/v2".toList then t ++ "/jsonRPC".toList
  else if jsEndsWith t "/api/v3".toList then
    replaceFirst "/api/v3".toList "/api/v2/jsonRPC".toList t
  else
    match urlRoot t with
    | some true => t ++ "/jsonRPC".toList
    | _ => t

/-! ## Core data model (`src/types.ts`) -/

/-- `Network`: `'testnet' | 'mainnet'`. -/
inductive Network where
  | testnet
  | mainnet
deriving DecidableEq, Repr

/-- The string used when a `Network` value is interpolated into a key. -/
def Network.str : Network → Str
  | .testnet => "testnet".toList
  | .mainnet => "mainnet".toList

/-- `ProviderStatus`. -/
inductive ProviderStatus where
  | available
  | degraded
  | offline
  | stale
  | untested
  | testing
deriving DecidableEq, Repr

/-- `ProviderType`. -/
inductive ProviderType where
  | chainstack
  | quicknode
  | toncenter
  | orbs
  | onfinality
  | ankr
  | getblock
  | tatum
  | tonhub
  | custom
deriving DecidableEq, Repr

/-- `ResolvedProvider` (runtime provider record with concrete URLs). -/
structure ResolvedProvider where
  id : Str
  name : Str
  type : ProviderType
  network : Network
  endpointV2 : Str
  endpointV3 : Option Str := none
  endpointV4 : Option Str := none
  endpointWs : Option Str := none
  apiKey : Option Str := none
  rps : ℚ
  priority : ℚ
  isDynamic : Bool
  browserCompatible : Bool := true
deriving DecidableEq, Repr

/-- `ProviderHealthResult`.  `latencyMs` is an integer or `null`
(`Math.round` output); `seqno` is the raw number extracted from the probe
response (no validation happens in `testProvider`, so it is any JS number);
`lastTested` is a `Date` in ms or `null`. -/
structure ProviderHealthResult where
  id : Str
  network : Network
  success : Bool
  status : ProviderStatus
  latencyMs : Option ℤ
  seqno : Option ℚ
  blocksBehind : ℚ
  lastTested : Option ℤ
  cachedEndpoint : Option Str := none
  error : Option Str := none
  browserCompatible : Option Bool := none
deriving DecidableEq, Repr

/-! ## Health checker (`src/core/healthChecker.ts`) -/

/-- `HealthChecker` state: the `results` map keyed by
`` `${providerId}-${network}` `` and the per-network `highestSeqno` map
(`Map.get` misses read as `|| 0`). -/
structure HealthChecker where
  results : Str → Option ProviderHealthResult
  highestSeqno : Network → ℚ

/-- `HealthChecker` configuration (`HealthCheckConfig`). -/
structure HealthCheckConfig where
  timeoutMs : ℚ
  maxBlocksBehind : ℚ
  degradedLatencyMs : ℚ
deriving DecidableEq, Repr

/-- `DEFAULT_CONFIG` of the health checker. -/
def healthDefaultConfig : HealthCheckConfig :=
  { timeoutMs := 10000, maxBlocksBehind := 10, degradedLatencyMs := 3000 }

/-- `getResultKey(providerId, network)` = `` `${providerId}-${network}` ``. -/
def getResultKey (providerId : Str) (network : Network) : Str :=
  providerId ++ ['-'] ++ network.str

/-- `HealthChecker.getResult(providerId, network)`. -/
def HealthChecker.getResult (hc : HealthChecker) (providerId : Str)
    (network : Network) : Option ProviderHealthResult :=
  hc.results (getResultKey providerId network)

/-- Store a result under a key (`this.results.set(key, result)`). -/
def HealthChecker.setResult (hc : HealthChecker) (key : Str)
    (r : ProviderHealthResult) : HealthChecker :=
  { hc with results := fun k => if k = key then some r else hc.results k }

/-- `HealthChecker.markDegraded(providerId, network, error?)`: when a prior
record exists, overwrite `status`, `error`, `lastTested` and keep every
other field (note: `success` is spread from the existing record). -/
def HealthChecker.markDegraded (hc : HealthChecker) (providerId : Str)
    (network : Network) (error : Option Str) (now : ℤ) : HealthChecker :=
  let key := getResultKey providerId network
  match hc.results key with
  | some existing =>
    hc.setResult key
      { existing with
        status := .degraded
        error := some (error.getD "Marked as degraded".toList)
        lastTested := some now }
  | none => hc

/-- `HealthChecker.markOffline(providerId, network, error?)`. -/
def HealthChecker.markOffline (hc : HealthChecker) (providerId : Str)
    (network : Network) (error : Option Str) (now : ℤ) : HealthChecker :=
  let key := getResultKey providerId network
  match hc.results key with
  | some existing =>
    hc.setResult key
      { existing with
        status := .offline
        error := some (error.getD "Marked as offline".toList)
        lastTested := some now }
  | none => hc

/-! ## Single probe (`HealthChecker.testProvider`) -/

/-- The `last` block of a `getMasterchainInfo` response body, as raw JSON:
`seqno` may be absent or any JS number. -/
structure LastBlock where
  seqno : Option ℚ
deriving DecidableEq, Repr

/-- A parsed `getMasterchainInfo` response body (after envelope unwrapping):
the `last` field may be absent. -/
structure MCInfo where
  last : Option LastBlock
deriving DecidableEq, Repr

/-- A JS error caught by `testProvider`: `name` (`'AbortError'` for aborts),
`message`, and the `String(error)` rendering used as a fallback. -/
structure ProbeError where
  name : Option Str := none
  message : Str
  asString : Str := []
deriving DecidableEq, Repr

/-- The outcome of the awaited endpoint resolution + `callGetMasterchainInfo`
network call inside `testProvider`'s `try` block: either the parsed body, or
the error that was thrown (timeouts, HTTP errors, missing endpoint, …). -/
inductive ProbeOutcome where
  | ok (info : MCInfo)
  | err (e : ProbeError)
deriving DecidableEq, Repr

/-- JS `a || b` on two strings (first operand wins unless empty). -/
def jsOrStr (a b : Str) : Str := if a = [] then b else a

/-- JS `x || 0` on an optional number (`undefined` and `0` both give `0`). -/
def jsNumOr0 (x : Option ℚ) : ℚ := x.getD 0

/-- JS `Math.round` (half away from zero rounds toward `+∞` in JS). -/
def jsRound (x : ℚ) : ℤ := ⌊x + 1 / 2⌋

/-- `errorMsg = error.message || String(error) || 'Unknown error'`. -/
def probeErrorMsg (e : ProbeError) : Str :=
  jsOrStr e.message (jsOrStr e.asString "Unknown error".toList)

/-- `HealthChecker.testProvider(provider)` as a state transformer.

The network interaction of the `try` block (endpoint lookup, normalization
and `callGetMasterchainInfo`) is abstracted as `outcome`; `startTime` and
`endTime` are the two `performance.now()` readings and `now` the `new Date()`
at result-recording time; `cachedEp` is the normalized endpoint string.
Returns the updated checker and the recorded `ProviderHealthResult`.

Note the success path: `const seqno = info.last?.seqno || 0;` — the extracted
seqno is **not validated**; any response (even one with a missing, zero,
negative or fractional seqno) is recorded with `success: true`. -/
def HealthChecker.testProvider (hc : HealthChecker) (provider : ResolvedProvider)
    (outcome : ProbeOutcome) (cachedEp : Str) (startTime endTime : ℚ)
    (now : ℤ) : HealthChecker × ProviderHealthResult :=
  let key := getResultKey provider.id provider.network
  let testingResult : ProviderHealthResult :=
    { id := provider.id, network := provider.network, success := false
      status := .testing, latencyMs := none, seqno := none
      blocksBehind := 0, lastTested := none }
  let hc := hc.setResult key testingResult
  match outcome with
  | .ok info =>
    let latencyMs : ℤ := jsRound (endTime - startTime)
    let seqno : ℚ := jsNumOr0 (info.last.bind LastBlock.seqno)
    let currentHighest : ℚ := hc.highestSeqno provider.network
    let hc :=
      if seqno > currentHighest then
        { hc with highestSeqno := fun n =>
            if n = provider.network then seqno else hc.highestSeqno n }
      else hc
    let highestOrSeqno : ℚ :=
      if hc.highestSeqno provider.network = 0 then seqno
      else hc.highestSeqno provider.network
    let blocksBehind : ℚ := max 0 (highestOrSeqno - seqno)
    let status : ProviderStatus :=
      if blocksBehind > healthDefaultConfig.maxBlocksBehind then .stale
      else if (latencyMs : ℚ) > healthDefaultConfig.degradedLatencyMs then .degraded
      else .available
    let result : ProviderHealthResult :=
      { id := provider.id, network := provider.network, success := true
        status := status, latencyMs := some latencyMs, seqno := some seqno
        blocksBehind := blocksBehind, lastTested := some now
        cachedEndpoint := some cachedEp }
    (hc.setResult key result, result)
  | .err e =>
    let latencyMs : ℤ := jsRound (endTime - startTime)
    let errorMsg := probeErrorMsg e
    let is429 : Bool :=
      jsIncludes errorMsg "429".toList ||
        jsIncludes (lowerStr errorMsg) "rate limit".toList
    let is404 : Bool :=
      jsIncludes errorMsg "404".toList ||
        jsIncludes (lowerStr errorMsg) "not found".toList
    let isTimeout : Bool :=
      e.name = some "AbortError".toList || jsIncludes errorMsg "timeout".toList
    let status : ProviderStatus :=
      if is429 then .degraded
      else if is404 then .offline
      else if isTimeout then .offline
      else .offline
    let result : ProviderHealthResult :=
      { id := provider.id, network := provider.network, success := false
        status := status
        latencyMs := if isTimeout then none else some latencyMs
        seqno := none, blocksBehind := 0, lastTested := some now
        error := some errorMsg }
    (hc.setResult key result, result)

/-! ## Seqno validation (`src/providers/base.ts`, `parseMasterchainInfo`) -/

/-- The two failure causes of `BaseProvider.parseMasterchainInfo`. -/
inductive ParseErr where
  /-- `'Invalid response structure'` (`!info || typeof info !== 'object'`). -/
  | invalidStructure
  /-- `` `Invalid seqno: ${seqno} (must be positive integer)` ``. -/
  | invalidSeqno (seqno : Option ℚ)
deriving DecidableEq, Repr

/-- `BaseProvider.parseMasterchainInfo(data)` after `parseResponse` envelope
unwrapping: `none` models a non-object `info`.  Throws unless `last.seqno`
is present, strictly positive and an integer (`Number.isInteger`). -/
def parseMasterchainInfo (info : Option MCInfo) : Except ParseErr MCInfo :=
  match info with
  | none => .error .invalidStructure
  | some i =>
    let seqno : Option ℚ := i.last.bind LastBlock.seqno
    match seqno with
    | none => .error (.invalidSeqno none)
    | some q =>
      if q ≤ 0 ∨ q.den ≠ 1 then .error (.invalidSeqno (some q))
      else .ok i

/-! ## Token-bucket rate limiter (`TokenBucketRateLimiter`) -/

/-- `RateLimitConfig`. -/
structure RateLimitConfig where
  rps : ℚ
  burstSize : ℚ
  minDelayMs : ℚ
  backoffMultiplier : ℚ
  maxBackoffMs : ℚ
deriving DecidableEq, Repr

/-- `DEFAULT_RATE_LIMIT`. -/
def DEFAULT_RATE_LIMIT : RateLimitConfig :=
  { rps := 1, burstSize := 3, minDelayMs := 1000
    backoffMultiplier := 2, maxBackoffMs := 30000 }

/-- The mutable fields of a `TokenBucketRateLimiter` instance. -/
structure LimiterState where
  config : RateLimitConfig
  tokens : ℚ
  lastRefill : ℤ
  currentBackoff : ℚ
  consecutiveErrors : ℕ
  processing : Bool
  queueLength : ℕ
deriving DecidableEq, Repr

/-- The constructor `new TokenBucketRateLimiter(config)`; `config` is the
merged `{ ...DEFAULT_RATE_LIMIT, ...config }` record and `now` is
`Date.now()`. -/
def mkLimiter (config : RateLimitConfig) (now : ℤ) : LimiterState :=
  { config := config, tokens := config.burstSize, lastRefill := now
    currentBackoff := 0, consecutiveErrors := 0
    processing := false, queueLength := 0 }

/-- `TokenBucketRateLimiter.refill()`:
`tokensToAdd = Math.floor((elapsed / 1000) * rps)`; tokens and `lastRefill`
change only when `tokensToAdd > 0`. -/
def LimiterState.refill (s : LimiterState) (now : ℤ) : LimiterState :=
  let elapsed : ℤ := now - s.lastRefill
  let tokensToAdd : ℤ := ⌊((elapsed : ℚ) / 1000) * s.config.rps⌋
  if tokensToAdd > 0 then
    { s with tokens := min s.config.burstSize (s.tokens + (tokensToAdd : ℚ))
             lastRefill := now }
  else s

/-- The backoff application inside `acquire` (after `await sleep`): when
`currentBackoff > 0`, reset `lastRefill` to the post-sleep `Date.now()` and
clear the backoff. -/
def LimiterState.applyBackoff (s : LimiterState) (afterSleep : ℤ) : LimiterState :=
  if s.currentBackoff > 0 then
    { s with lastRefill := afterSleep, currentBackoff := 0 }
  else s

/-- The token-consuming core of `acquire` on its no-wait path: refill at
`now`, apply a pending backoff (waking at `afterBackoff`), then — if a token
is available (`tokens > 0`, i.e. the `while (tokens <= 0)` loop is skipped) —
consume one and stamp `lastRefill` with the post-min-delay `Date.now()`
(`nowEnd`).  `none` means the acquire would enter the wait loop. -/
def LimiterState.acquireNoWait (s : LimiterState) (now afterBackoff nowEnd : ℤ) :
    Option LimiterState :=
  let s1 := s.refill now
  let s2 := s1.applyBackoff afterBackoff
  if s2.tokens > 0 then
    some { s2 with tokens := s2.tokens - 1, lastRefill := nowEnd }
  else none

/-- `TokenBucketRateLimiter.reportSuccess()`. -/
def LimiterState.reportSuccess (s : LimiterState) : LimiterState :=
  { s with currentBackoff := 0, consecutiveErrors := 0 }

/-- `TokenBucketRateLimiter.reportRateLimitError()`. -/
def LimiterState.reportRateLimitError (s : LimiterState) (now : ℤ) : LimiterState :=
  { s with
    consecutiveErrors := s.consecutiveErrors + 1
    currentBackoff :=
      if s.currentBackoff = 0 then s.config.minDelayMs * s.config.backoffMultiplier
      else min (s.currentBackoff * s.config.backoffMultiplier) s.config.maxBackoffMs
    tokens := 0
    lastRefill := now }

/-- `TokenBucketRateLimiter.reportError()` (non-429). -/
def LimiterState.reportError (s : LimiterState) : LimiterState :=
  let consecutiveErrors := s.consecutiveErrors + 1
  { s with
    consecutiveErrors := consecutiveErrors
    currentBackoff :=
      if consecutiveErrors ≥ 3 then
        min (s.config.minDelayMs * (consecutiveErrors : ℚ)) (s.config.maxBackoffMs / 2)
      else s.currentBackoff }

/-- `TokenBucketRateLimiter.reset()`. -/
def LimiterState.reset (s : LimiterState) (now : ℤ) : LimiterState :=
  { s with tokens := s.config.burstSize, lastRefill := now
           currentBackoff := 0, consecutiveErrors := 0 }

/-- `TokenBucketRateLimiter.updateConfig(config)`; `newConfig` is the merged
`{ ...this.config, ...config }` record. -/
def LimiterState.updateConfig (s : LimiterState) (newConfig : RateLimitConfig) :
    LimiterState :=
  let s1 := { s with config := newConfig }
  if s1.tokens > newConfig.burstSize then { s1 with tokens := newConfig.burstSize }
  else s1

/-- `k` back-to-back acquires, all observing the same clock value `t`
(the no-wait path of each). -/
def iterAcquire (t : ℤ) : ℕ → LimiterState → Option LimiterState
  | 0, s => some s
  | k + 1, s =>
    match iterAcquire t k s with
    | some s' => s'.acquireNoWait t t t
    | none => none

/-! ## Provider registry (`src/core/registry.ts`, `src/config/schema.ts`) -/

/-- `ProviderRegistry` state: resolved providers in insertion order (ids are
unique, the underlying `Map` is keyed by id) plus the `defaults` id lists. -/
structure Registry where
  providers : List ResolvedProvider
  defaults : Network → List Str

/-- `ProviderRegistry.getProvider(id)`. -/
def Registry.getProvider (reg : Registry) (id : Str) : Option ResolvedProvider :=
  reg.providers.find? (fun p => p.id = id)

/-- `ProviderRegistry.getProvidersForNetwork(network)`. -/
def Registry.getProvidersForNetwork (reg : Registry) (network : Network) :
    List ResolvedProvider :=
  reg.providers.filter (fun p => p.network = network)

/-- `getDefaultProvidersForNetwork(config, network)` from
`src/config/schema.ts`: providers named by `defaults[network]` in that order
(ids are unique, so the sparse `inOrder[defaultIndex] = provider` array plus
`filter(Boolean)` is a lookup per listed id), followed by the remaining
network providers sorted by ascending priority (stable sort). -/
def Registry.getDefaultOrderForNetwork (reg : Registry) (network : Network) :
    List ResolvedProvider :=
  let networkProviders := reg.getProvidersForNetwork network
  let defaultOrder := reg.defaults network
  let inOrder := defaultOrder.filterMap
    (fun id => networkProviders.find? (fun p => p.id = id))
  let remaining := networkProviders.filter
    (fun p => ¬ defaultOrder.contains p.id)
  inOrder ++ remaining.mergeSort (fun a b => a.priority ≤ b.priority)

/-! ## Provider selector (`ProviderSelector` in `src/core/manager.ts`) -/

/-- The running adapter kind. -/
inductive Adapter where
  | node
  | browser
deriving DecidableEq, Repr

/-- `SelectionConfig`. -/
structure SelectionConfig where
  preferredLatencyMs : ℚ
  latencyWeight : ℚ
  priorityWeight : ℚ
  freshnessWeight : ℚ
  minStatus : List ProviderStatus
deriving DecidableEq, Repr

/-- The selector's `DEFAULT_CONFIG`. -/
def selectorDefaultConfig : SelectionConfig :=
  { preferredLatencyMs := 1000, latencyWeight := 4 / 10
    priorityWeight := 3 / 10, freshnessWeight := 3 / 10
    minStatus := [.available, .degraded] }

/-- The mutable fields of a `ProviderSelector` instance. -/
structure SelectorState where
  config : SelectionConfig
  adapter : Adapter
  selectedProviderId : Option Str
  autoSelect : Bool
  customEndpoint : Option Str
  bestProviderByNetwork : Network → Option Str
  activeProviderByNetwork : Network → Option Str

/-- JS truthiness of a nullable string (`null`/`undefined`/`''` are falsy). -/
def jsTruthyOptStr : Option Str → Bool
  | some s => s ≠ []
  | none => false

/-- `ProviderSelector.getStatusScore`. -/
def getStatusScore : ProviderStatus → ℚ
  | .available => 1
  | .degraded => 1 / 2
  | .stale => 3 / 10
  | _ => 0

/-- `ProviderSelector.getLatencyScore`; `jsLog` models `Math.log`. -/
def getLatencyScore (jsLog : ℚ → ℚ) (cfg : SelectionConfig)
    (latencyMs : Option ℤ) : ℚ :=
  match latencyMs with
  | none => 1 / 2
  | some l =>
    let ratio : ℚ := (l : ℚ) / cfg.preferredLatencyMs
    max 0 (1 - jsLog (ratio + 1) / jsLog 11)

/-- `ProviderSelector.getPriorityScore`. -/
def getPriorityScore (priority : ℚ) : ℚ := max 0 (1 - priority / 100)

/-- `ProviderSelector.getFreshnessScore`. -/
def getFreshnessScore (blocksBehind : ℚ) : ℚ := max 0 (1 - blocksBehind / 10)

/-- The failure cooldown used throughout the selector (`cooldownMs`). -/
def cooldownMs : ℤ := 30000

/-- `ProviderSelector.scoreProvider(provider, network)`.  `now` is
`Date.now()` at the cooldown checks. -/
def scoreProvider (jsLog : ℚ → ℚ) (sel : SelectorState) (hc : HealthChecker)
    (provider : ResolvedProvider) (network : Network) (now : ℤ) : ℚ :=
  match hc.getResult provider.id network with
  | none => (1 / 100) * (1 / (provider.priority + 1))
  | some health =>
    if health.status = .untested then (1 / 100) * (1 / (provider.priority + 1))
    else if health.success = false then
      match health.lastTested with
      | some t =>
        if now - t > cooldownMs then (1 / 1000) * (1 / (provider.priority + 1))
        else 0
      | none => 0
    else if health.status = .offline then 0
    else if ¬ sel.config.minStatus.contains health.status then 0
    else
      getStatusScore health.status * (2 / 10) +
        getLatencyScore jsLog sel.config health.latencyMs * sel.config.latencyWeight +
        getPriorityScore provider.priority * sel.config.priorityWeight +
        getFreshnessScore health.blocksBehind * sel.config.freshnessWeight

/-- `ProviderSelector.filterBrowserCompatible(providers, network)`. -/
def filterBrowserCompatible (hc : HealthChecker)
    (providers : List ResolvedProvider) (network : Network) :
    List ResolvedProvider :=
  providers.filter fun p =>
    p.browserCompatible &&
      !(match hc.getResult p.id network with
        | some h => h.browserCompatible = some false
        | none => false)

/-- The first element of the scored list after the stable descending sort
`.sort((a, b) => b.score - a.score)`: the earliest element attaining the
maximal score. -/
def argmaxFirst : List (ResolvedProvider × ℚ) → Option (ResolvedProvider × ℚ)
  | [] => none
  | x :: xs => some (xs.foldl (fun c y => if c.2 < y.2 then y else c) x)

/-- One of the two cooldown-aware fallback scans in `findBestProvider`.
`allowSuccess` distinguishes the first loop (over the default order, which
also returns providers with `success === true`) from the second (over all
candidates, which does not). -/
def fallbackScan (hc : HealthChecker) (network : Network) (now : ℤ)
    (allowSuccess : Bool) : List ResolvedProvider → Option ResolvedProvider
  | [] => none
  | p :: rest =>
    match hc.getResult p.id network with
    | none => some p
    | some health =>
      if health.status = .untested then some p
      else if allowSuccess && health.success then some p
      else if !health.success then
        match health.lastTested with
        | some t =>
          if now - t > cooldownMs then some p
          else fallbackScan hc network now allowSuccess rest
        | none => fallbackScan hc network now allowSuccess rest
      else fallbackScan hc network now allowSuccess rest

/-- Set `activeProviderByNetwork[network] = id`. -/
def SelectorState.setActive (sel : SelectorState) (network : Network)
    (id : Str) : SelectorState :=
  { sel with activeProviderByNetwork := fun n =>
      if n = network then some id else sel.activeProviderByNetwork n }

/-- `ProviderSelector.findBestProvider(network)`: score, pick the best
positive score, otherwise walk the cooldown-aware fallbacks.  Returns the
chosen provider (if any) together with the selector state as mutated by the
cache/active-tracking writes. -/
def findBestProvider (jsLog : ℚ → ℚ) (reg : Registry) (hc : HealthChecker)
    (sel : SelectorState) (network : Network) (now : ℤ) :
    Option ResolvedProvider × SelectorState :=
  let providers0 := reg.getProvidersForNetwork network
  let providers :=
    if sel.adapter = .browser then filterBrowserCompatible hc providers0 network
    else providers0
  if providers = [] then (none, sel)
  else
    let scored :=
      (providers.map fun p => (p, scoreProvider jsLog sel hc p network now)).filter
        fun item => item.2 > 0
    match argmaxFirst scored with
    | none =>
      match fallbackScan hc network now true (reg.getDefaultOrderForNetwork network) with
      | some d => (some d, sel.setActive network d.id)
      | none =>
        match fallbackScan hc network now false providers with
        | some p => (some p, sel.setActive network p.id)
        | none => (none, sel)
    | some best =>
      let bestHealth := hc.getResult best.1.id network
      if (match bestHealth with | some h => h.success | none => false) then
        (some best.1,
          { sel with
            bestProviderByNetwork := fun n =>
              if n = network then some best.1.id else sel.bestProviderByNetwork n
            activeProviderByNetwork := fun n =>
              if n = network then some best.1.id else sel.activeProviderByNetwork n })
      else (some best.1, sel.setActive network best.1.id)

/-- `ProviderSelector.createCustomProvider(network)`. -/
def createCustomProvider (sel : SelectorState) (network : Network) :
    ResolvedProvider :=
  { id := "custom".toList, name := "Custom Endpoint".toList
    type := .custom, network := network
    endpointV2 := (sel.customEndpoint).getD []
    rps := 10, priority := 0, isDynamic := false, browserCompatible := true }

/-- `ProviderSelector.getBestProvider(network)`: custom-endpoint override,
manual selection, cached best (with the `success !== false` guard), then
`findBestProvider`.  Returns the provider together with the mutated selector
state. -/
def getBestProvider (jsLog : ℚ → ℚ) (reg : Registry) (hc : HealthChecker)
    (sel : SelectorState) (network : Network) (now : ℤ) :
    Option ResolvedProvider × SelectorState :=
  if jsTruthyOptStr sel.customEndpoint then
    (some (createCustomProvider sel network), sel)
  else
    let manual : Option ResolvedProvider :=
      if !sel.autoSelect && jsTruthyOptStr sel.selectedProviderId then
        match reg.getProvider ((sel.selectedProviderId).getD []) with
        | some provider =>
          if provider.network = network then some provider else none
        | none => none
      else none
    match manual with
    | some provider => (some provider, sel.setActive network provider.id)
    | none =>
      match sel.bestProviderByNetwork network with
      | some cachedBestId =>
        let cached := reg.getProvider cachedBestId
        let health := hc.getResult cachedBestId network
        if (match cached, health with
            | some _, some h => h.success && sel.config.minStatus.contains h.status
            | _, _ => false) then
          ((cached), sel.setActive network cachedBestId)
        else
          let sel1 :=
            { sel with
              bestProviderByNetwork := fun n =>
                if n = network then none else sel.bestProviderByNetwork n
              activeProviderByNetwork := fun n =>
                if n = network then none else sel.activeProviderByNetwork n }
          findBestProvider jsLog reg hc sel1 network now
      | none => findBestProvider jsLog reg hc sel network now

/-- `ProviderSelector.getNextProvider(network, excludeIds)`. -/
def getNextProvider (jsLog : ℚ → ℚ) (reg : Registry) (hc : HealthChecker)
    (sel : SelectorState) (network : Network) (now : ℤ)
    (excludeIds : List Str) : Option ResolvedProvider :=
  let providers0 := reg.getProvidersForNetwork network
  let providers :=
    if sel.adapter = .browser then filterBrowserCompatible hc providers0 network
    else providers0
  let available :=
    ((providers.filter fun p => ¬ excludeIds.contains p.id).map
        fun p => (p, scoreProvider jsLog sel hc p network now)).filter
      fun item => item.2 > 0
  (argmaxFirst available).map Prod.fst

/-- `ProviderSelector.handleProviderFailure(providerId, network)`. -/
def handleProviderFailure (jsLog : ℚ → ℚ) (reg : Registry) (hc : HealthChecker)
    (sel : SelectorState) (providerId : Str) (network : Network) (now : ℤ) :
    Option ResolvedProvider × SelectorState :=
  let sel1 :=
    if sel.bestProviderByNetwork network = some providerId then
      { sel with bestProviderByNetwork := fun n =>
          if n = network then none else sel.bestProviderByNetwork n }
    else sel
  let sel2 :=
    { sel1 with activeProviderByNetwork := fun n =>
        if n = network then none else sel1.activeProviderByNetwork n }
  (getNextProvider jsLog reg hc sel2 network now [providerId], sel2)

/-- `ProviderSelector.setCustomEndpoint(endpoint)`:
`this.customEndpoint = endpoint?.trim() || null`. -/
def SelectorState.setCustomEndpoint (sel : SelectorState)
    (endpoint : Option Str) : SelectorState :=
  { sel with customEndpoint :=
      match endpoint with
      | some e => let t := jsTrim e; if t = [] then none else some t
      | none => none }

/-! ## Rate limiter manager (`RateLimiterManager`) -/

/-- `RateLimiterManager` state: per-provider limiter instances and saved
configs. -/
structure RLManager where
  limiters : Str → Option LimiterState
  configs : Str → Option RateLimitConfig

/-- `RateLimiterManager.getLimiter(providerId)` (no explicit config
argument): reuse the existing limiter or construct one from the saved config
merged over `DEFAULT_RATE_LIMIT`. -/
def RLManager.getLimiter (m : RLManager) (providerId : Str) (now : ℤ) :
    LimiterState × RLManager :=
  match m.limiters providerId with
  | some limiter => (limiter, m)
  | none =>
    let limiter := mkLimiter ((m.configs providerId).getD DEFAULT_RATE_LIMIT) now
    (limiter,
      { m with limiters := fun id =>
          if id = providerId then some limiter else m.limiters id })

/-- Store the (possibly new) limiter back under its id. -/
def RLManager.setLimiter (m : RLManager) (providerId : Str)
    (l : LimiterState) : RLManager :=
  { m with limiters := fun id =>
      if id = providerId then some l else m.limiters id }

/-- `RateLimiterManager.reportRateLimitError(providerId)`. -/
def RLManager.reportRateLimitError (m : RLManager) (providerId : Str)
    (now : ℤ) : RLManager :=
  let (limiter, m1) := m.getLimiter providerId now
  m1.setLimiter providerId (limiter.reportRateLimitError now)

/-- `RateLimiterManager.reportError(providerId)`. -/
def RLManager.reportError (m : RLManager) (providerId : Str) (now : ℤ) :
    RLManager :=
  let (limiter, m1) := m.getLimiter providerId now
  m1.setLimiter providerId limiter.reportError

/-! ## Manager facade (`ProviderManager` in `src/core/manager.ts`) -/

/-- The caller-reported error passed to `ProviderManager.reportError`:
its message (for a string error, the string itself) and the optional
`status` / `response.status` fields read by `isRateLimitError`. -/
structure RpcError where
  message : Str
  status : Option ℚ := none
  responseStatus : Option ℚ := none
deriving DecidableEq, Repr

/-- JS `a || b` on optional numbers (`undefined` and `0` are falsy). -/
def jsOrOptNum (a b : Option ℚ) : Option ℚ :=
  match a with
  | some q => if q = 0 then b else some q
  | none => b

/-- `isRateLimitError(error)` from `src/utils/timeout.ts`. -/
def isRateLimitError (e : RpcError) : Bool :=
  let message := lowerStr e.message
  let status := jsOrOptNum e.status e.responseStatus
  status = some 429 || jsIncludes message "rate limit".toList ||
    jsIncludes message "429".toList

/-- The parts of a `ProviderManager` instance the embedded operations read
and write. -/
structure ManagerState where
  network : Network
  initialized : Bool
  selector : SelectorState
  checker : HealthChecker
  rateLimiter : RLManager

/-- `ProviderManager.getFallbackEndpoint()`. -/
def getFallbackEndpoint (network : Network) : Str :=
  match network with
  | .mainnet => "https://toncenter.com/api/v2/jsonRPC".toList
  | .testnet => "https://testnet.toncenter.com/api/v2/jsonRPC".toList

/-- `ProviderManager.getEndpoint()`.

`orbsDisc` models the dynamic `@orbs-network/ton-access` discovery
(`none` = the import/discovery threw, falling through to the static
endpoint).  Returns the URL and the manager state as mutated by the
selector's cache writes; `none` when not initialized (the source throws). -/
def ManagerState.getEndpoint (st : ManagerState) (jsLog : ℚ → ℚ)
    (urlRoot : Str → Option Bool) (orbsDisc : Network → Option Str)
    (reg : Registry) (now : ℤ) : Option (Str × ManagerState) :=
  if !st.initialized then none
  else
    match getBestProvider jsLog reg st.checker st.selector st.network now with
    | (none, sel') =>
      some (getFallbackEndpoint st.network, { st with selector := sel' })
    | (some provider, sel') =>
      let st' := { st with selector := sel' }
      if provider.isDynamic && provider.type = .orbs then
        match orbsDisc st.network with
        | some endpoint => some (normalizeV2Endpoint urlRoot endpoint, st')
        | none => some (normalizeV2Endpoint urlRoot provider.endpointV2, st')
      else some (normalizeV2Endpoint urlRoot provider.endpointV2, st')

/-- `is429` in `ProviderManager.reportError`. -/
def errIs429 (e : RpcError) : Bool :=
  jsIncludes (lowerStr e.message) "429".toList ||
    jsIncludes (lowerStr e.message) "rate limit".toList

/-- `is503` in `ProviderManager.reportError`. -/
def errIs503 (e : RpcError) : Bool :=
  jsIncludes (lowerStr e.message) "503".toList ||
    jsIncludes (lowerStr e.message) "service unavailable".toList

/-- `is502` in `ProviderManager.reportError`. -/
def errIs502 (e : RpcError) : Bool :=
  jsIncludes (lowerStr e.message) "502".toList ||
    jsIncludes (lowerStr e.message) "bad gateway".toList

/-- `is404` in `ProviderManager.reportError`. -/
def errIs404 (e : RpcError) : Bool :=
  jsIncludes (lowerStr e.message) "404".toList ||
    jsIncludes (lowerStr e.message) "not found".toList

/-- `isTimeout` in `ProviderManager.reportError`. -/
def errIsTimeout (e : RpcError) : Bool :=
  jsIncludes (lowerStr e.message) "timeout".toList ||
    jsIncludes (lowerStr e.message) "abort".toList

/-- `ProviderManager.reportError(error)`: classify the message, inform the
rate limiter and the health checker, then let the selector handle the
failure. -/
def ManagerState.reportError (st : ManagerState) (jsLog : ℚ → ℚ)
    (reg : Registry) (e : RpcError) (now : ℤ) : ManagerState :=
  if !st.initialized then st
  else
    let res := getBestProvider jsLog reg st.checker st.selector st.network now
    let sel' := res.2
    match res.1 with
    | none => { st with selector := sel' }
    | some provider =>
      let errorMsg := e.message
      let rlhc :=
        if isRateLimitError e || errIs429 e then
          (st.rateLimiter.reportRateLimitError provider.id now,
            st.checker.markDegraded provider.id st.network (some errorMsg) now)
        else if errIs503 e || errIs502 e || errIs404 e || errIsTimeout e then
          (st.rateLimiter.reportError provider.id now,
            st.checker.markOffline provider.id st.network (some errorMsg) now)
        else
          (st.rateLimiter.reportError provider.id now,
            st.checker.markDegraded provider.id st.network (some errorMsg) now)
      let sel'' :=
        (handleProviderFailure jsLog reg rlhc.2 sel' provider.id st.network now).2
      { st with selector := sel'', checker := rlhc.2, rateLimiter := rlhc.1 }

/-! ## Config resolution (`src/config/schema.ts`) -/

/-- `ProviderEndpoints` (URL templates, possibly containing `\x7bkey\x7d`). -/
structure ProviderEndpoints where
  v2 : Option Str := none
  v3 : Option Str := none
  v4 : Option Str := none
  ws : Option Str := none
deriving DecidableEq, Repr

/-- `ProviderConfig` (a provider entry of `rpc.json`). -/
structure ProviderConfig where
  name : Str
  type : ProviderType
  network : Network
  endpoints : ProviderEndpoints
  keyEnvVar : Option Str := none
  apiKeyEnvVar : Option Str := none
  rps : ℚ
  priority : ℚ
  enabled : Bool
  isDynamic : Option Bool := none
  browserCompatible : Option Bool := none
deriving DecidableEq, Repr

/-- The process environment, as read by `getEnvVar`. -/
def Env := Str → Option Str

/-- The literal placeholder `{key}`. -/
def keyToken : Str := "{key}".toList

/-- `resolveKeyPlaceholder(url, keyEnvVar)`: replace the **first** `{key}`
occurrence with the env value; leave the URL untouched when the variable is
absent or empty (warning only). -/
def resolveKeyPlaceholder (env : Env) (url : Str) (keyEnvVar : Option Str) :
    Str :=
  if !jsTruthyOptStr keyEnvVar || !jsIncludes url keyToken then url
  else
    match env (keyEnvVar.getD []) with
    | some key => if key = [] then url else replaceFirst keyToken key url
    | none => url

/-- `resolveEndpoints(endpoints, keyEnvVar)`. -/
def resolveEndpoints (env : Env) (endpoints : ProviderEndpoints)
    (keyEnvVar : Option Str) : ProviderEndpoints :=
  let res : Option Str → Option Str := fun o =>
    if jsTruthyOptStr o then some (resolveKeyPlaceholder env (o.getD []) keyEnvVar)
    else none
  { v2 := res endpoints.v2, v3 := res endpoints.v3
    v4 := res endpoints.v4, ws := res endpoints.ws }

/-- JS `a || b || ''` on optional strings. -/
def jsOrOptStrD (a b : Option Str) : Str :=
  if jsTruthyOptStr a then a.getD []
  else if jsTruthyOptStr b then b.getD []
  else []

/-- `resolveProvider(id, config)`: `none` for disabled providers and for
providers with no (truthy) resolved v2/v3/v4 endpoint. -/
def resolveProvider (env : Env) (id : Str) (config : ProviderConfig) :
    Option ResolvedProvider :=
  if !config.enabled then none
  else
    let resolved := resolveEndpoints env config.endpoints config.keyEnvVar
    if !jsTruthyOptStr resolved.v2 && !jsTruthyOptStr resolved.v3 &&
        !jsTruthyOptStr resolved.v4 then none
    else
      let apiKey0 : Option Str :=
        if jsTruthyOptStr config.apiKeyEnvVar then env ((config.apiKeyEnvVar).getD [])
        else none
      let apiKey : Option Str :=
        if !jsTruthyOptStr apiKey0 && jsTruthyOptStr config.keyEnvVar &&
            config.type = .onfinality then
          env (config.keyEnvVar.getD [])
        else apiKey0
      some
        { id := id, name := config.name, type := config.type
          network := config.network
          endpointV2 := jsOrOptStrD resolved.v2 resolved.v3
          endpointV3 := resolved.v3, endpointV4 := resolved.v4
          endpointWs := resolved.ws, apiKey := apiKey
          rps := config.rps, priority := config.priority
          isDynamic := (config.isDynamic).getD false
          browserCompatible := (config.browserCompatible).getD true }

/-! ## Spec-side definitions and invariant predicates used by the claims -/

/-- The refill step as the specification words it: set
`tokens = min(burstSize, tokens + elapsedSeconds · rps)` with real-valued
tokens, and always update `lastRefillAt` to the current time.  Stated for
comparison with the source's `LimiterState.refill`. -/
def LimiterState.refillSpec (s : LimiterState) (now : ℤ) : LimiterState :=
  { s with
    tokens := min s.config.burstSize
      (s.tokens + ((now - s.lastRefill : ℤ) : ℚ) / 1000 * s.config.rps)
    lastRefill := now }

/-- A rate-limit config whose burst size is a non-negative integer, as every
config shipped or derived in the source is (`DEFAULT_RATE_LIMIT`,
`CHAINSTACK_RATE_LIMIT`, …, the `createRateLimiter` and manager-`init`
derivations all use integer burst sizes). -/
def CfgOk (cfg : RateLimitConfig) : Prop :=
  0 ≤ cfg.burstSize ∧ cfg.burstSize.den = 1

instance (cfg : RateLimitConfig) : Decidable (CfgOk cfg) := by
  unfold CfgOk; infer_instance

/-- The token-bucket invariant: `0 ≤ tokens ≤ burstSize`, with tokens (and
the burst size) integral. -/
def LimiterInv (s : LimiterState) : Prop :=
  CfgOk s.config ∧ 0 ≤ s.tokens ∧ s.tokens ≤ s.config.burstSize ∧
    s.tokens.den = 1

instance (s : LimiterState) : Decidable (LimiterInv s) := by
  unfold LimiterInv; infer_instance

/-- A health record that failed its last probe and is still inside the
30-second cooldown window at time `now`. -/
def failedInCooldown (now : ℤ) (r : ProviderHealthResult) : Prop :=
  r.success = false ∧ ∃ t, r.lastTested = some t ∧ now - t ≤ cooldownMs

/-- The claimed resolution invariant: some v2/v3/v4 URL is present with no
unresolved `\x7bkey\x7d` token, or the provider is dynamic. -/
def providerUrlInvariant (p : ResolvedProvider) : Bool :=
  (!p.endpointV2.isEmpty && !jsIncludes p.endpointV2 keyToken) ||
    (match p.endpointV3 with
     | some u => !u.isEmpty && !jsIncludes u keyToken
     | none => false) ||
    (match p.endpointV4 with
     | some u => !u.isEmpty && !jsIncludes u keyToken
     | none => false) ||
    p.isDynamic

/-! ## Concrete fixtures used by the example-level theorems below -/

/-- A trivial stand-in for `Math.log` (its values are irrelevant to every
theorem below). -/
def jsLog0 : ℚ → ℚ := fun _ => 0

/-- A URL-parser model in which `new URL` always throws. -/
def urlRoot0 : Str → Option Bool := fun _ => none

/-- An Orbs discovery model in which discovery always fails. -/
def orbsDisc0 : Network → Option Str := fun _ => none

/-- An empty health checker. -/
def hcEmpty : HealthChecker := ⟨fun _ => none, fun _ => 0⟩

/-- A successful, healthy record for provider `p1` on testnet. -/
def exSuccess : ProviderHealthResult :=
  { id := "p1".toList, network := .testnet, success := true
    status := .available, latencyMs := some 50, seqno := some 100
    blocksBehind := 0, lastTested := some 0 }

/-- A checker that holds `exSuccess` for `p1`/testnet. -/
def hcWithSuccess : HealthChecker :=
  ⟨fun k => if k = getResultKey "p1".toList .testnet then some exSuccess
            else none,
    fun _ => 0⟩

/-- A plain static testnet provider. -/
def provP1 : ResolvedProvider :=
  { id := "p1".toList, name := "P1".toList, type := .toncenter
    network := .testnet, endpointV2 := "https://e/api/v2".toList
    rps := 10, priority := 0, isDynamic := false }

/-- A registry holding only `provP1`, with it as the default. -/
def regP1 : Registry := ⟨[provP1], fun _ => [provP1.id]⟩

/-- A probe response whose body is `{ last: { seqno: 0 } }` — an invalid
(non-positive) seqno. -/
def infoSeqno0 : MCInfo := ⟨some ⟨some 0⟩⟩

/-- A limiter state with an empty bucket (`rps = 1`, `burstSize = 3`). -/
def limEmpty : LimiterState :=
  { config := DEFAULT_RATE_LIMIT, tokens := 0, lastRefill := 0
    currentBackoff := 0, consecutiveErrors := 0, processing := false
    queueLength := 0 }

/-- An auto-select selector with no overrides and empty caches. -/
def selAuto : SelectorState :=
  { config := selectorDefaultConfig, adapter := .node
    selectedProviderId := none, autoSelect := true, customEndpoint := none
    bestProviderByNetwork := fun _ => none
    activeProviderByNetwork := fun _ => none }

/-- An empty rate-limiter manager. -/
def rlmEmpty : RLManager := ⟨fun _ => none, fun _ => none⟩

/-- An initialized manager whose selector has the custom endpoint
`"https://my.proxy/api/v2"` set. -/
def stCustom : ManagerState :=
  { network := .testnet, initialized := true
    selector := { selAuto with customEndpoint := some "https://my.proxy/api/v2".toList }
    checker := hcWithSuccess, rateLimiter := rlmEmpty }

/-- An initialized manager in plain auto-select mode over `regP1`. -/
def stAuto : ManagerState :=
  { network := .testnet, initialized := true, selector := selAuto
    checker := hcEmpty, rateLimiter := rlmEmpty }

/-- A provider config whose only endpoint still contains `\x7bkey\x7d` after
resolution (its env var is unset). -/
def cfgUnresolved : ProviderConfig :=
  { name := "A".toList, type := .chainstack, network := .testnet
    endpoints := { v2 := some "https://a/{key}/api/v2".toList }
    keyEnvVar := some "K".toList, rps := 25, priority := 1, enabled := true }

/-- An environment with no variables set. -/
def envEmpty : Env := fun _ => none

/-- An environment in which `K` is set to `secret`. -/
def envWithK : Env := fun k => if k = "K".toList then some "secret".toList else none

/-! ## C4 — `reportRateLimitError` -/

/-- C4: `reportRateLimitError` increments `consecutiveErrors`, applies the
exponential backoff update (`minDelayMs · backoffMultiplier` from zero,
otherwise `min(currentBackoff · backoffMultiplier, maxBackoffMs)`), zeroes
the tokens and stamps `lastRefill = now`; the config, processing flag and
queue length are untouched. -/
theorem reportRateLimitError_correct (s : LimiterState) (now : ℤ) :
    (s.reportRateLimitError now).consecutiveErrors = s.consecutiveErrors + 1 ∧
    (s.reportRateLimitError now).currentBackoff =
      (if s.currentBackoff = 0 then
        s.config.minDelayMs * s.config.backoffMultiplier
      else min (s.currentBackoff * s.config.backoffMultiplier)
        s.config.maxBackoffMs) ∧
    (s.reportRateLimitError now).tokens = 0 ∧
    (s.reportRateLimitError now).lastRefill = now ∧
    (s.reportRateLimitError now).config = s.config ∧
    (s.reportRateLimitError now).processing = s.processing ∧
    (s.reportRateLimitError now).queueLength = s.queueLength :=
  ⟨rfl, rfl, rfl, rfl, rfl, rfl, rfl⟩

/-! ## C5 — the refill step -/

/-- Unfolding `refill` when at least one whole token has accrued. -/
lemma refill_eq_of_pos (s : LimiterState) (now : ℤ)
    (h : 0 < ⌊((now - s.lastRefill : ℤ) : ℚ) / 1000 * s.config.rps⌋) :
    s.refill now =
      { s with
        tokens := min s.config.burstSize
          (s.tokens + ((⌊((now - s.lastRefill : ℤ) : ℚ) / 1000 * s.config.rps⌋ : ℤ) : ℚ))
        lastRefill := now } := by
  simp only [LimiterState.refill]
  rw [if_pos h]

/-- Unfolding `refill` when less than one token has accrued: no-op. -/
lemma refill_eq_of_nonpos (s : LimiterState) (now : ℤ)
    (h : ⌊((now - s.lastRefill : ℤ) : ℚ) / 1000 * s.config.rps⌋ ≤ 0) :
    s.refill now = s := by
  simp only [LimiterState.refill]
  rw [if_neg (not_lt.2 h)]

/-- At `limEmpty` (rps 1, `lastRefill = 0`), 500 elapsed ms floor to 0. -/
lemma limEmpty_floor_500 :
    ⌊((500 - limEmpty.lastRefill : ℤ) : ℚ) / 1000 * limEmpty.config.rps⌋ ≤ 0 := by
  norm_num [limEmpty, DEFAULT_RATE_LIMIT]

/-- At `limEmpty`, 2000 elapsed ms floor to 2. -/
lemma limEmpty_floor_2000 :
    0 < ⌊((2000 - limEmpty.lastRefill : ℤ) : ℚ) / 1000 * limEmpty.config.rps⌋ := by
  norm_num [limEmpty, DEFAULT_RATE_LIMIT]

/-- At `limEmpty`, 0 elapsed ms floor to 0. -/
lemma limEmpty_floor_0 :
    ⌊((0 - limEmpty.lastRefill : ℤ) : ℚ) / 1000 * limEmpty.config.rps⌋ ≤ 0 := by
  norm_num [limEmpty, DEFAULT_RATE_LIMIT]

/-- C5 counterexample: with `rps = 1`, an empty bucket and 500 ms elapsed,
the source's `refill` adds `Math.floor(0.5) = 0` tokens and leaves
`lastRefill` alone, while the claimed real-valued refill would set
`tokens = 0.5` and `lastRefill = now`. -/
theorem refill_ne_spec_refill : limEmpty.refill 500 ≠ limEmpty.refillSpec 500 := by
  intro h
  have h' := congrArg LimiterState.lastRefill h
  rw [refill_eq_of_nonpos limEmpty 500 limEmpty_floor_500] at h'
  exact absurd h' (by decide)

/-- C5 (amended): `refill` adds `⌊elapsedMs / 1000 · rps⌋` tokens (capped at
`burstSize`) and updates `lastRefill`, but only when that floor is positive;
otherwise the state (including `lastRefill`) is unchanged. -/
theorem refill_floor (s : LimiterState) (now : ℤ) :
    (0 < ⌊((now - s.lastRefill : ℤ) : ℚ) / 1000 * s.config.rps⌋ →
      s.refill now =
        { s with
          tokens := min s.config.burstSize
            (s.tokens + ((⌊((now - s.lastRefill : ℤ) : ℚ) / 1000 * s.config.rps⌋ : ℤ) : ℚ))
          lastRefill := now }) ∧
    (⌊((now - s.lastRefill : ℤ) : ℚ) / 1000 * s.config.rps⌋ ≤ 0 →
      s.refill now = s) :=
  ⟨refill_eq_of_pos s now, refill_eq_of_nonpos s now⟩

/-- Witness for `refill_floor` at concrete states: 2000 ms elapsed with
`rps = 1` adds 2 tokens; 0 ms elapsed changes nothing. -/
theorem refill_floor_witness :
    (0 < ⌊((2000 - limEmpty.lastRefill : ℤ) : ℚ) / 1000 * limEmpty.config.rps⌋ ∧
      limEmpty.refill 2000 =
        { limEmpty with
          tokens := min limEmpty.config.burstSize
            (limEmpty.tokens +
              ((⌊((2000 - limEmpty.lastRefill : ℤ) : ℚ) / 1000 * limEmpty.config.rps⌋ : ℤ) : ℚ))
          lastRefill := 2000 }) ∧
    (⌊((0 - limEmpty.lastRefill : ℤ) : ℚ) / 1000 * limEmpty.config.rps⌋ ≤ 0 ∧
      limEmpty.refill 0 = limEmpty) :=
  ⟨⟨limEmpty_floor_2000, (refill_floor limEmpty 2000).1 limEmpty_floor_2000⟩,
    ⟨limEmpty_floor_0, (refill_floor limEmpty 0).2 limEmpty_floor_0⟩⟩

/-! ## C1 — `markDegraded` / `markOffline` -/

/-- C1 counterexample: `markDegraded` does **not** set `success = false` —
it spreads the prior record, so a previously successful record keeps
`success = true` after the mark. -/
theorem markDegraded_keeps_success :
    (((hcWithSuccess.markDegraded "p1".toList .testnet none 500).getResult
        "p1".toList .testnet).map ProviderHealthResult.success = some true) ∧
    ¬ (((hcWithSuccess.markDegraded "p1".toList .testnet none 500).getResult
        "p1".toList .testnet).map ProviderHealthResult.success = some false) := by
  constructor <;> decide

/-- C1 (amended): given a prior record, `markDegraded` (resp. `markOffline`)
sets the status to `degraded` (resp. `offline`), records the error and
refreshes `lastTested`, and preserves **all** other fields — in particular
the prior `success`, `seqno` and `latencyMs`. -/
theorem mark_transitions (hc : HealthChecker) (id : Str) (network : Network)
    (err : Option Str) (now : ℤ) (ex : ProviderHealthResult)
    (h : hc.getResult id network = some ex) :
    (hc.markDegraded id network err now).getResult id network =
      some { ex with status := .degraded
                     error := some (err.getD "Marked as degraded".toList)
                     lastTested := some now } ∧
    (hc.markOffline id network err now).getResult id network =
      some { ex with status := .offline
                     error := some (err.getD "Marked as offline".toList)
                     lastTested := some now } := by
  unfold HealthChecker.getResult at h
  constructor <;>
    simp [HealthChecker.markDegraded, HealthChecker.markOffline,
      HealthChecker.getResult, HealthChecker.setResult, h]

/-- Witness for `mark_transitions` on the concrete `hcWithSuccess` state. -/
theorem mark_transitions_witness :
    hcWithSuccess.getResult "p1".toList .testnet = some exSuccess ∧
    ((hcWithSuccess.markDegraded "p1".toList .testnet none 500).getResult
        "p1".toList .testnet =
      some { exSuccess with status := .degraded
                            error := some ("Marked as degraded".toList)
                            lastTested := some 500 } ∧
     (hcWithSuccess.markOffline "p1".toList .testnet none 500).getResult
        "p1".toList .testnet =
      some { exSuccess with status := .offline
                            error := some ("Marked as offline".toList)
                            lastTested := some 500 }) :=
  ⟨by decide,
    mark_transitions hcWithSuccess "p1".toList .testnet none 500 exSuccess
      (by decide)⟩

/-! ## C3 — seqno validation in the probe -/

/-- C3: divergence between `HealthChecker.testProvider` and the repository's
own validator.  For the response body `{ last: { seqno: 0 } }` (an invalid,
non-positive seqno), `testProvider` records `success = true`,
`status = 'available'`, `seqno = 0` and no error — it records the malformed
response as a successful probe — while `BaseProvider.parseMasterchainInfo`
(the validation the spec describes, unused by `testProvider`) rejects the
same body with `Invalid seqno`. -/
theorem testProvider_accepts_invalid_seqno :
    ((hcEmpty.testProvider provP1 (.ok infoSeqno0)
        "https://e/api/v2/jsonRPC".toList 0 50 1000).2.success = true) ∧
    ((hcEmpty.testProvider provP1 (.ok infoSeqno0)
        "https://e/api/v2/jsonRPC".toList 0 50 1000).2.status = .available) ∧
    ((hcEmpty.testProvider provP1 (.ok infoSeqno0)
        "https://e/api/v2/jsonRPC".toList 0 50 1000).2.seqno = some 0) ∧
    ((hcEmpty.testProvider provP1 (.ok infoSeqno0)
        "https://e/api/v2/jsonRPC".toList 0 50 1000).2.error = none) ∧
    parseMasterchainInfo (some infoSeqno0) = .error (.invalidSeqno (some 0)) := by
  have hrec : (hcEmpty.testProvider provP1 (.ok infoSeqno0)
      "https://e/api/v2/jsonRPC".toList 0 50 1000).2 =
      { id := provP1.id, network := .testnet, success := true
        status := .available, latencyMs := some 50, seqno := some 0
        blocksBehind := 0, lastTested := some 1000
        cachedEndpoint := some "https://e/api/v2/jsonRPC".toList } := by
    simp only [HealthChecker.testProvider, HealthChecker.setResult, infoSeqno0,
      provP1, hcEmpty, jsNumOr0, jsRound, healthDefaultConfig]
    norm_num
  rw [hrec]
  exact ⟨rfl, rfl, rfl, rfl, by norm_num [parseMasterchainInfo, infoSeqno0]⟩

/-! ## C10 — token-bucket invariant -/

/-- Integrality transfer: a rational with denominator 1 is an integer. -/
lemma exists_int_of_den_one {q : ℚ} (h : q.den = 1) : ∃ z : ℤ, q = (z : ℚ) :=
  ⟨q.num, ((Rat.den_eq_one_iff q).1 h).symm⟩

/-- A positive integral rational is at least 1. -/
lemma one_le_of_pos_int {q : ℚ} (hden : q.den = 1) (hpos : 0 < q) : 1 ≤ q := by
  obtain ⟨z, rfl⟩ := exists_int_of_den_one hden
  have hz : (0 : ℤ) < z := by exact_mod_cast hpos
  have h1 : (1 : ℤ) ≤ z := hz
  exact_mod_cast h1

/-- `applyBackoff` never touches tokens or config. -/
lemma applyBackoff_tokens (s : LimiterState) (t : ℤ) :
    (s.applyBackoff t).tokens = s.tokens ∧ (s.applyBackoff t).config = s.config := by
  unfold LimiterState.applyBackoff
  split <;> exact ⟨rfl, rfl⟩

/-- `refill` preserves the bucket invariant. -/
lemma limiterInv_refill {s : LimiterState} (now : ℤ) (h : LimiterInv s) :
    LimiterInv (s.refill now) := by
  obtain ⟨hcfg, h0, hle, hden⟩ := h
  rcases le_or_lt (⌊((now - s.lastRefill : ℤ) : ℚ) / 1000 * s.config.rps⌋) 0 with
    hz | hz
  · rw [refill_eq_of_nonpos s now hz]
    exact ⟨hcfg, h0, hle, hden⟩
  · rw [refill_eq_of_pos s now hz]
    obtain ⟨zt, hzt⟩ := exists_int_of_den_one hden
    refine ⟨hcfg, le_min hcfg.1 ?_, min_le_left _ _, ?_⟩
    · have : (0 : ℚ) ≤ (⌊((now - s.lastRefill : ℤ) : ℚ) / 1000 * s.config.rps⌋ : ℚ) := by
        exact_mod_cast le_of_lt hz
      positivity
    · rcases min_choice s.config.burstSize
        (s.tokens + ((⌊((now - s.lastRefill : ℤ) : ℚ) / 1000 * s.config.rps⌋ : ℤ) : ℚ)) with
        hmin | hmin
      · rw [hmin]; exact hcfg.2
      · rw [hmin, hzt, ← Int.cast_add]
        exact Rat.den_intCast _

/-- The token-consuming step of `acquire` preserves the bucket invariant. -/
lemma limiterInv_acquireNoWait {s : LimiterState} (nw nb ne : ℤ)
    (h : LimiterInv s) (s' : LimiterState)
    (he : s.acquireNoWait nw nb ne = some s') : LimiterInv s' := by
  unfold LimiterState.acquireNoWait at he
  set s1 := s.refill nw with hs1
  have h1 : LimiterInv s1 := limiterInv_refill nw h
  obtain ⟨htok, hcfg⟩ := applyBackoff_tokens s1 nb
  set s2 := s1.applyBackoff nb with hs2
  by_cases hpos : s2.tokens > 0
  · rw [if_pos hpos] at he
    obtain ⟨hc1, h01, hle1, hden1⟩ := h1
    cases he
    have hden2 : s2.tokens.den = 1 := by rw [htok]; exact hden1
    refine ⟨by rw [hcfg]; exact hc1, ?_, ?_, ?_⟩
    · have := one_le_of_pos_int hden2 hpos
      simpa using sub_nonneg.2 this
    · calc s2.tokens - 1 ≤ s2.tokens := by linarith
        _ ≤ s2.config.burstSize := by rw [htok, hcfg]; exact hle1
    · obtain ⟨z, hz⟩ := exists_int_of_den_one hden2
      show (s2.tokens - 1).den = 1
      rw [hz, show ((z : ℚ) - 1) = ((z - 1 : ℤ) : ℚ) by push_cast; ring]
      exact Rat.den_intCast _
  · rw [if_neg hpos] at he
    exact absurd he (by simp)

/-- `reportRateLimitError`, `reportSuccess`, `reportError`, `reset` and
`updateConfig` preserve the bucket invariant. -/
lemma limiterInv_reports {s : LimiterState} (now : ℤ) (cfg : RateLimitConfig)
    (h : LimiterInv s) (hcfg : CfgOk cfg) :
    LimiterInv (s.reportRateLimitError now) ∧ LimiterInv s.reportSuccess ∧
      LimiterInv s.reportError ∧ LimiterInv (s.reset now) ∧
      LimiterInv (s.updateConfig cfg) := by
  obtain ⟨hc, h0, hle, hden⟩ := h
  refine ⟨⟨hc, le_refl _, hc.1, (by norm_num : ((0 : ℚ)).den = 1)⟩, ⟨hc, h0, hle, hden⟩,
    ⟨hc, h0, hle, hden⟩, ⟨hc, hc.1, le_refl _, hc.2⟩, ?_⟩
  unfold LimiterState.updateConfig
  by_cases hgt : s.tokens > cfg.burstSize
  · rw [if_pos hgt]
    exact ⟨hcfg, hcfg.1, le_refl _, hcfg.2⟩
  · rw [if_neg hgt]
    exact ⟨hcfg, h0, le_of_not_lt hgt, hden⟩

/-- Starting from a full bucket, `k ≤ burstSize` back-to-back acquires all
succeed without waiting, leaving `burstSize - k` tokens. -/
lemma iterAcquire_from_full (cfg : RateLimitConfig) (t0 : ℤ) (b : ℕ)
    (hb : cfg.burstSize = (b : ℚ)) :
    ∀ k, k ≤ b →
      iterAcquire t0 k (mkLimiter cfg t0) =
        some { config := cfg, tokens := (b : ℚ) - k, lastRefill := t0
               currentBackoff := 0, consecutiveErrors := 0
               processing := false, queueLength := 0 } := by
  intro k
  induction k with
  | zero =>
    intro _
    simp [iterAcquire, mkLimiter, hb]
  | succ k ih =>
    intro hk
    have hk' : k ≤ b := Nat.le_of_succ_le hk
    rw [iterAcquire, ih hk']
    have hrefill :
        LimiterState.refill
          { config := cfg, tokens := (b : ℚ) - k, lastRefill := t0
            currentBackoff := 0, consecutiveErrors := 0
            processing := false, queueLength := 0 } t0 =
          { config := cfg, tokens := (b : ℚ) - k, lastRefill := t0
            currentBackoff := 0, consecutiveErrors := 0
            processing := false, queueLength := 0 } :=
      refill_eq_of_nonpos _ _ (by norm_num)
    have hpos : (0 : ℚ) < (b : ℚ) - k := by
      have : (k : ℚ) < (b : ℚ) := by exact_mod_cast hk
      linarith
    show LimiterState.acquireNoWait _ t0 t0 t0 = _
    unfold LimiterState.acquireNoWait LimiterState.applyBackoff
    rw [hrefill]
    norm_num [hpos]
    ring

/-- C10: the token count obeys `0 ≤ tokens ≤ burstSize` (with integral
tokens) across construction, refill, the acquire consume step,
`reportRateLimitError`, `reportSuccess`, `reportError`, `reset` and
`updateConfig`; a fresh limiter starts with a full bucket, so the first
`burstSize` back-to-back acquires all get a token without entering the
wait loop. -/
theorem tokens_bucket_invariant (cfg : RateLimitConfig) (s : LimiterState)
    (now nw nb ne t0 : ℤ) (k b : ℕ)
    (hcfg : CfgOk cfg) (hs : LimiterInv s) (hb : cfg.burstSize = (b : ℚ))
    (hk : k ≤ b) :
    ((mkLimiter cfg now).tokens = cfg.burstSize ∧ LimiterInv (mkLimiter cfg now)) ∧
    LimiterInv (s.refill now) ∧
    (∀ s', s.acquireNoWait nw nb ne = some s' → LimiterInv s') ∧
    LimiterInv (s.reportRateLimitError now) ∧
    LimiterInv s.reportSuccess ∧
    LimiterInv s.reportError ∧
    LimiterInv (s.reset now) ∧
    LimiterInv (s.updateConfig cfg) ∧
    (∃ s', iterAcquire t0 k (mkLimiter cfg t0) = some s' ∧
      s'.tokens = (b : ℚ) - k) := by
  obtain ⟨hrl, hsc, hre, hrs, huc⟩ := limiterInv_reports now cfg hs hcfg
  refine ⟨⟨rfl, hcfg, hcfg.1, le_refl _, hcfg.2⟩, limiterInv_refill now hs,
    fun s' he => limiterInv_acquireNoWait nw nb ne hs s' he,
    hrl, hsc, hre, hrs, huc, ?_⟩
  exact ⟨_, iterAcquire_from_full cfg t0 b hb k hk, rfl⟩

/-- Witness for `tokens_bucket_invariant` at the default config (burst 3),
a fresh limiter, and `k = 2` of `b = 3` acquires. -/
theorem tokens_bucket_invariant_witness :
    CfgOk DEFAULT_RATE_LIMIT ∧ LimiterInv (mkLimiter DEFAULT_RATE_LIMIT 0) ∧
    DEFAULT_RATE_LIMIT.burstSize = ((3 : ℕ) : ℚ) ∧ (2 : ℕ) ≤ 3 ∧
    (((mkLimiter DEFAULT_RATE_LIMIT 7).tokens = DEFAULT_RATE_LIMIT.burstSize ∧
        LimiterInv (mkLimiter DEFAULT_RATE_LIMIT 7)) ∧
      LimiterInv ((mkLimiter DEFAULT_RATE_LIMIT 0).refill 7) ∧
      (∀ s', (mkLimiter DEFAULT_RATE_LIMIT 0).acquireNoWait 8 9 10 = some s' →
        LimiterInv s') ∧
      LimiterInv ((mkLimiter DEFAULT_RATE_LIMIT 0).reportRateLimitError 7) ∧
      LimiterInv (mkLimiter DEFAULT_RATE_LIMIT 0).reportSuccess ∧
      LimiterInv (mkLimiter DEFAULT_RATE_LIMIT 0).reportError ∧
      LimiterInv ((mkLimiter DEFAULT_RATE_LIMIT 0).reset 7) ∧
      LimiterInv ((mkLimiter DEFAULT_RATE_LIMIT 0).updateConfig DEFAULT_RATE_LIMIT) ∧
      (∃ s', iterAcquire 11 2 (mkLimiter DEFAULT_RATE_LIMIT 11) = some s' ∧
        s'.tokens = ((3 : ℕ) : ℚ) - (2 : ℕ))) :=
  ⟨by decide, by decide, by norm_num [DEFAULT_RATE_LIMIT], by decide,
    tokens_bucket_invariant DEFAULT_RATE_LIMIT (mkLimiter DEFAULT_RATE_LIMIT 0)
      7 8 9 10 11 2 3 (by decide) (by decide)
      (by norm_num [DEFAULT_RATE_LIMIT]) (by decide)⟩

/-! ## C8 — provider resolution invariant -/

/-- C8 counterexample: with `K` unset in the environment, `resolveProvider`
still produces a provider: its only URL keeps the unresolved `\x7bkey\x7d`
placeholder and `isDynamic` is `false`, so the claimed invariant is false
on this output. -/
theorem resolveProvider_keeps_placeholder :
    (resolveProvider envEmpty "a".toList cfgUnresolved).map providerUrlInvariant =
      some false ∧
    (resolveProvider envEmpty "a".toList cfgUnresolved).map
        (fun p => jsIncludes p.endpointV2 keyToken) = some true ∧
    (resolveProvider envEmpty "a".toList cfgUnresolved).map
        ResolvedProvider.isDynamic = some false := by
  refine ⟨by decide, by decide, by decide⟩

/-- C8 (amended): every provider produced by `resolveProvider` has at least
one of its v2/v3/v4 endpoints present (possibly still carrying an
unresolved `\x7bkey\x7d` placeholder — rejected only later, at probe time);
and resolution never *introduces* a placeholder: a URL with no `\x7bkey\x7d`
passes through `resolveKeyPlaceholder` unchanged. -/
theorem resolveProvider_endpoints (env : Env) (id : Str) (cfg : ProviderConfig)
    (p : ResolvedProvider) (h : resolveProvider env id cfg = some p) :
    (p.endpointV2 ≠ [] ∨ jsTruthyOptStr p.endpointV3 = true ∨
      jsTruthyOptStr p.endpointV4 = true) ∧
    (∀ url kev, ¬ keyToken <:+: url → resolveKeyPlaceholder env url kev = url) := by
  constructor
  · unfold resolveProvider at h
    by_cases hen : cfg.enabled
    · rw [if_neg (by simp [hen])] at h
      set resolved := resolveEndpoints env cfg.endpoints cfg.keyEnvVar with hres
      by_cases hv : (!jsTruthyOptStr resolved.v2 && !jsTruthyOptStr resolved.v3 &&
          !jsTruthyOptStr resolved.v4) = true
      · rw [if_pos hv] at h
        exact absurd h (by simp)
      · rw [if_neg hv] at h
        have hp := Option.some.inj h
        have h2 : p.endpointV2 = jsOrOptStrD resolved.v2 resolved.v3 := by
          rw [← hp]
        have h3 : p.endpointV3 = resolved.v3 := by rw [← hp]
        have h4 : p.endpointV4 = resolved.v4 := by rw [← hp]
        by_cases hb3 : jsTruthyOptStr resolved.v3 = true
        · exact Or.inr (Or.inl (by rw [h3]; exact hb3))
        · by_cases hb4 : jsTruthyOptStr resolved.v4 = true
          · exact Or.inr (Or.inr (by rw [h4]; exact hb4))
          · have hb2 : jsTruthyOptStr resolved.v2 = true := by
              simp only [Bool.not_eq_true] at hb3 hb4
              simp [hb3, hb4, Bool.not_eq_true'] at hv
              exact hv
            refine Or.inl ?_
            rw [h2]
            unfold jsOrOptStrD
            rw [if_pos hb2]
            cases hv2 : resolved.v2 with
            | none => rw [hv2] at hb2; exact absurd hb2 (by simp [jsTruthyOptStr])
            | some sv =>
              rw [hv2] at hb2
              simpa [jsTruthyOptStr] using hb2
    · rw [if_pos (by simp [hen])] at h
      exact absurd h (by simp)
  · intro url kev hni
    unfold resolveKeyPlaceholder
    rw [if_pos]
    simp [jsIncludes, hni]

/-- Witness for `resolveProvider_endpoints`: the same config with `K` set
resolves to a concrete provider with a clean v2 URL. -/
theorem resolveProvider_endpoints_witness :
    resolveProvider envWithK "a".toList cfgUnresolved =
      some { id := "a".toList, name := "A".toList, type := .chainstack
             network := .testnet
             endpointV2 := "https://a/secret/api/v2".toList
             rps := 25, priority := 1, isDynamic := false } ∧
    (("https://a/secret/api/v2".toList : Str) ≠ [] ∨
      jsTruthyOptStr (none : Option Str) = true ∨
      jsTruthyOptStr (none : Option Str) = true) ∧
    (∀ url kev, ¬ keyToken <:+: url →
      resolveKeyPlaceholder envWithK url kev = url) := by
  have h : resolveProvider envWithK "a".toList cfgUnresolved =
      some { id := "a".toList, name := "A".toList, type := .chainstack
             network := .testnet
             endpointV2 := "https://a/secret/api/v2".toList
             rps := 25, priority := 1, isDynamic := false } := by decide
  exact ⟨h, (resolveProvider_endpoints envWithK "a".toList cfgUnresolved _ h).1,
    (resolveProvider_endpoints envWithK "a".toList cfgUnresolved _ h).2⟩

/-! ## C6 — custom endpoint bypass -/

/-- C6 counterexample: the endpoint returned under a custom endpoint is the
*normalized* custom string, not the trimmed custom string verbatim — for
`"https://my.proxy/api/v2"` the manager returns it with `/jsonRPC`
appended. -/
theorem customEndpoint_not_verbatim :
    (stCustom.getEndpoint jsLog0 urlRoot0 orbsDisc0 regP1 0).map Prod.fst =
      some "https://my.proxy/api/v2/jsonRPC".toList ∧
    jsTrim "https://my.proxy/api/v2".toList = "https://my.proxy/api/v2".toList ∧
    ("https://my.proxy/api/v2/jsonRPC".toList : Str) ≠
      "https://my.proxy/api/v2".toList := by
  refine ⟨by decide, by decide, by decide⟩

/-- C6 (amended): with a non-empty custom endpoint set, `getEndpoint`
returns `normalizeV2Endpoint(custom)` — equal to the custom string itself
whenever that string is already in normalized form, e.g. already ends in
`/jsonRPC` — and the result is independent of the health checker, of the
rate limiter, of the registry and of the clock: none of them is consulted
(the manager state is returned unchanged). -/
theorem customEndpoint_bypass (jsLog : ℚ → ℚ) (urlRoot : Str → Option Bool)
    (orbsDisc : Network → Option Str) (reg : Registry) (st : ManagerState)
    (now : ℤ) (c : Str)
    (hinit : st.initialized = true)
    (hcust : st.selector.customEndpoint = some c) (hne : c ≠ []) :
    st.getEndpoint jsLog urlRoot orbsDisc reg now =
      some (normalizeV2Endpoint urlRoot c, st) := by
  unfold ManagerState.getEndpoint
  rw [if_neg (by simp [hinit])]
  unfold getBestProvider
  rw [if_pos (by simp [jsTruthyOptStr, hcust, hne])]
  simp [createCustomProvider, hcust]

/-- Witness for `customEndpoint_bypass` on the concrete `stCustom` state. -/
theorem customEndpoint_bypass_witness :
    stCustom.initialized = true ∧
    stCustom.selector.customEndpoint = some "https://my.proxy/api/v2".toList ∧
    ("https://my.proxy/api/v2".toList : Str) ≠ [] ∧
    stCustom.getEndpoint jsLog0 urlRoot0 orbsDisc0 regP1 0 =
      some (normalizeV2Endpoint urlRoot0 "https://my.proxy/api/v2".toList,
        stCustom) :=
  ⟨rfl, rfl, by decide,
    customEndpoint_bypass jsLog0 urlRoot0 orbsDisc0 regP1 stCustom 0
      "https://my.proxy/api/v2".toList rfl rfl (by decide)⟩

/-! ## C7 — error classification in `reportError` -/

/-- C7: with a provider active, `reportError` dispatches exactly as claimed:
a 429/rate-limit message feeds the rate limiter `reportRateLimitError` and
the health checker `markDegraded`; a 503/502/404/timeout-or-abort message
feeds `reportError` and `markOffline`; any other message feeds `reportError`
and `markDegraded`; in all three cases the selector then runs
`handleProviderFailure(id, network)`. -/
theorem reportError_dispatch (jsLog : ℚ → ℚ) (reg : Registry)
    (st : ManagerState) (e : RpcError) (now : ℤ) (p : ResolvedProvider)
    (hinit : st.initialized = true)
    (hbest : (getBestProvider jsLog reg st.checker st.selector st.network now).1 =
      some p) :
    ((isRateLimitError e || errIs429 e) = true →
      st.reportError jsLog reg e now =
        { st with
          selector := (handleProviderFailure jsLog reg
              (st.checker.markDegraded p.id st.network (some e.message) now)
              (getBestProvider jsLog reg st.checker st.selector st.network now).2
              p.id st.network now).2
          checker := st.checker.markDegraded p.id st.network (some e.message) now
          rateLimiter := st.rateLimiter.reportRateLimitError p.id now }) ∧
    ((isRateLimitError e || errIs429 e) = false →
      (errIs503 e || errIs502 e || errIs404 e || errIsTimeout e) = true →
      st.reportError jsLog reg e now =
        { st with
          selector := (handleProviderFailure jsLog reg
              (st.checker.markOffline p.id st.network (some e.message) now)
              (getBestProvider jsLog reg st.checker st.selector st.network now).2
              p.id st.network now).2
          checker := st.checker.markOffline p.id st.network (some e.message) now
          rateLimiter := st.rateLimiter.reportError p.id now }) ∧
    ((isRateLimitError e || errIs429 e) = false →
      (errIs503 e || errIs502 e || errIs404 e || errIsTimeout e) = false →
      st.reportError jsLog reg e now =
        { st with
          selector := (handleProviderFailure jsLog reg
              (st.checker.markDegraded p.id st.network (some e.message) now)
              (getBestProvider jsLog reg st.checker st.selector st.network now).2
              p.id st.network now).2
          checker := st.checker.markDegraded p.id st.network (some e.message) now
          rateLimiter := st.rateLimiter.reportError p.id now }) := by
  refine ⟨fun h1 => ?_, fun h1 h2 => ?_, fun h1 h2 => ?_⟩ <;>
    · unfold ManagerState.reportError
      rw [if_neg (by simp [hinit])]
      simp only [hbest, h1]
      first
      | rfl
      | (simp only [h2]; rfl)

/-- Witness for `reportError_dispatch` on the concrete `stCustom` state and
three concrete error messages (`HTTP 429`, `HTTP 503`, `boom`). -/
theorem reportError_dispatch_witness :
    stCustom.initialized = true ∧
    (getBestProvider jsLog0 regP1 stCustom.checker stCustom.selector
        stCustom.network 0).1 =
      some (createCustomProvider stCustom.selector .testnet) ∧
    (isRateLimitError { message := "HTTP 429".toList } ||
      errIs429 { message := "HTTP 429".toList }) = true ∧
    stCustom.reportError jsLog0 regP1 { message := "HTTP 429".toList } 0 =
      { stCustom with
        selector := (handleProviderFailure jsLog0 regP1
            (stCustom.checker.markDegraded
              (createCustomProvider stCustom.selector .testnet).id
              stCustom.network (some "HTTP 429".toList) 0)
            (getBestProvider jsLog0 regP1 stCustom.checker stCustom.selector
              stCustom.network 0).2
            (createCustomProvider stCustom.selector .testnet).id
            stCustom.network 0).2
        checker := stCustom.checker.markDegraded
          (createCustomProvider stCustom.selector .testnet).id
          stCustom.network (some "HTTP 429".toList) 0
        rateLimiter := stCustom.rateLimiter.reportRateLimitError
          (createCustomProvider stCustom.selector .testnet).id 0 } ∧
    stCustom.reportError jsLog0 regP1 { message := "HTTP 503".toList } 0 =
      { stCustom with
        selector := (handleProviderFailure jsLog0 regP1
            (stCustom.checker.markOffline
              (createCustomProvider stCustom.selector .testnet).id
              stCustom.network (some "HTTP 503".toList) 0)
            (getBestProvider jsLog0 regP1 stCustom.checker stCustom.selector
              stCustom.network 0).2
            (createCustomProvider stCustom.selector .testnet).id
            stCustom.network 0).2
        checker := stCustom.checker.markOffline
          (createCustomProvider stCustom.selector .testnet).id
          stCustom.network (some "HTTP 503".toList) 0
        rateLimiter := stCustom.rateLimiter.reportError
          (createCustomProvider stCustom.selector .testnet).id 0 } ∧
    stCustom.reportError jsLog0 regP1 { message := "boom".toList } 0 =
      { stCustom with
        selector := (handleProviderFailure jsLog0 regP1
            (stCustom.checker.markDegraded
              (createCustomProvider stCustom.selector .testnet).id
              stCustom.network (some "boom".toList) 0)
            (getBestProvider jsLog0 regP1 stCustom.checker stCustom.selector
              stCustom.network 0).2
            (createCustomProvider stCustom.selector .testnet).id
            stCustom.network 0).2
        checker := stCustom.checker.markDegraded
          (createCustomProvider stCustom.selector .testnet).id
          stCustom.network (some "boom".toList) 0
        rateLimiter := stCustom.rateLimiter.reportError
          (createCustomProvider stCustom.selector .testnet).id 0 } := by
  have hbest : (getBestProvider jsLog0 regP1 stCustom.checker stCustom.selector
      stCustom.network 0).1 =
      some (createCustomProvider stCustom.selector .testnet) := by decide
  refine ⟨rfl, hbest, by decide, ?_, ?_, ?_⟩
  · exact (reportError_dispatch jsLog0 regP1 stCustom
      { message := "HTTP 429".toList } 0 _ rfl hbest).1 (by decide)
  · exact (reportError_dispatch jsLog0 regP1 stCustom
      { message := "HTTP 503".toList } 0 _ rfl hbest).2.1 (by decide) (by decide)
  · exact (reportError_dispatch jsLog0 regP1 stCustom
      { message := "boom".toList } 0 _ rfl hbest).2.2 (by decide) (by decide)

/-! ## C2 — the selector never returns an in-cooldown failed provider -/

/-- The max-tracking fold of `argmaxFirst` yields one of its inputs. -/
lemma foldl_max_mem (xs : List (ResolvedProvider × ℚ)) (x : ResolvedProvider × ℚ) :
    xs.foldl (fun c y => if c.2 < y.2 then y else c) x ∈ x :: xs := by
  induction xs generalizing x with
  | nil => simp
  | cons y ys ih =>
    simp only [List.foldl_cons]
    rcases List.mem_cons.1 (ih (if x.2 < y.2 then y else x)) with h | h
    · rw [h]
      by_cases hxy : x.2 < y.2
      · simp [hxy]
      · simp [hxy]
    · simp [List.mem_cons, h]

/-- `argmaxFirst` yields an element of the list. -/
lemma argmaxFirst_mem {l : List (ResolvedProvider × ℚ)} {x : ResolvedProvider × ℚ}
    (h : argmaxFirst l = some x) : x ∈ l := by
  cases l with
  | nil => exact absurd h (by simp [argmaxFirst])
  | cons y ys =>
    have hx := Option.some.inj h
    rw [← hx]
    exact foldl_max_mem ys y

/-- An in-cooldown failed record scores 0 (given it is not `untested`). -/
lemma scoreProvider_eq_zero_of_bad (jsLog : ℚ → ℚ) (sel : SelectorState)
    (hc : HealthChecker) (p : ResolvedProvider) (network : Network) (now : ℤ)
    (r : ProviderHealthResult)
    (hr : hc.getResult p.id network = some r)
    (hunt : r.status ≠ .untested)
    (hbad : failedInCooldown now r) :
    scoreProvider jsLog sel hc p network now = 0 := by
  obtain ⟨hsucc, t, ht, hcl⟩ := hbad
  simp only [scoreProvider, hr]
  rw [if_neg hunt, if_pos hsucc, ht]
  simp only []
  rw [if_neg (not_lt.2 hcl)]

/-- What `fallbackScan` guarantees about anything it returns. -/
lemma fallbackScan_some (hc : HealthChecker) (network : Network) (now : ℤ)
    (flag : Bool) :
    ∀ l p, fallbackScan hc network now flag l = some p →
      hc.getResult p.id network = none ∨
      ∃ h, hc.getResult p.id network = some h ∧
        (h.status = .untested ∨ (flag = true ∧ h.success = true) ∨
          (h.success = false ∧ ∃ t, h.lastTested = some t ∧ now - t > cooldownMs)) := by
  intro l
  induction l with
  | nil => intro p hp; exact absurd hp (by simp [fallbackScan])
  | cons q rest ih =>
    intro p hp
    unfold fallbackScan at hp
    cases hq : hc.getResult q.id network with
    | none =>
      rw [hq] at hp
      cases Option.some.inj hp
      exact Or.inl hq
    | some h =>
      rw [hq] at hp
      dsimp only at hp
      by_cases h1 : h.status = .untested
      · rw [if_pos h1] at hp
        cases Option.some.inj hp
        exact Or.inr ⟨h, hq, Or.inl h1⟩
      · rw [if_neg h1] at hp
        by_cases h2 : (flag && h.success) = true
        · rw [if_pos h2] at hp
          cases Option.some.inj hp
          exact Or.inr ⟨h, hq, Or.inr (Or.inl (by simpa using h2))⟩
        · rw [if_neg h2] at hp
          by_cases h3 : (!h.success) = true
          · rw [if_pos h3] at hp
            cases hlt : h.lastTested with
            | none => rw [hlt] at hp; exact ih p hp
            | some t =>
              rw [hlt] at hp
              dsimp only at hp
              by_cases h4 : now - t > cooldownMs
              · rw [if_pos h4] at hp
                cases Option.some.inj hp
                exact Or.inr ⟨h, hq,
                  Or.inr (Or.inr ⟨by simpa using h3, t, hlt, h4⟩)⟩
              · rw [if_neg h4] at hp
                exact ih p hp
          · rw [if_neg h3] at hp
            exact ih p hp

/-- Whatever `findBestProvider` returns is never a provider whose current
record failed within the cooldown window (no stored record being
`untested`). -/
lemma findBestProvider_no_cooldown_failed (jsLog : ℚ → ℚ) (reg : Registry)
    (hc : HealthChecker) (sel : SelectorState) (network : Network) (now : ℤ)
    (p : ResolvedProvider)
    (hunt : ∀ k r, hc.results k = some r → r.status ≠ .untested)
    (hres : (findBestProvider jsLog reg hc sel network now).1 = some p)
    (r : ProviderHealthResult) (hr : hc.getResult p.id network = some r) :
    ¬ failedInCooldown now r := by
  intro hbad
  have huntr : r.status ≠ .untested := hunt _ _ hr
  have hscore := scoreProvider_eq_zero_of_bad jsLog sel hc p network now r hr huntr hbad
  obtain ⟨hsucc, t, ht, hcl⟩ := hbad
  simp only [findBestProvider] at hres
  generalize (if sel.adapter = Adapter.browser then
      filterBrowserCompatible hc (reg.getProvidersForNetwork network) network
    else reg.getProvidersForNetwork network) = provs at hres
  split at hres
  · exact absurd hres (by simp)
  · split at hres
    · split at hres
      · next d hd =>
        have hdp : d = p := by simpa using hres
        subst hdp
        rcases fallbackScan_some hc network now true _ _ hd with hnone | ⟨h, hh, hcase⟩
        · rw [hr] at hnone
          exact absurd hnone (by simp)
        · rw [hr] at hh
          cases Option.some.inj hh
          rcases hcase with h1 | ⟨_, h2⟩ | ⟨_, t', ht', hgt⟩
          · exact huntr h1
          · rw [hsucc] at h2
            exact Bool.false_ne_true h2
          · rw [ht] at ht'
            cases Option.some.inj ht'
            exact absurd hgt (not_lt.2 hcl)
      · split at hres
        · next q hq2 =>
          have hqp : q = p := by simpa using hres
          subst hqp
          rcases fallbackScan_some hc network now false _ _ hq2 with hnone | ⟨h, hh, hcase⟩
          · rw [hr] at hnone
            exact absurd hnone (by simp)
          · rw [hr] at hh
            cases Option.some.inj hh
            rcases hcase with h1 | ⟨hflag, _⟩ | ⟨_, t', ht', hgt⟩
            · exact huntr h1
            · exact Bool.false_ne_true hflag
            · rw [ht] at ht'
              cases Option.some.inj ht'
              exact absurd hgt (not_lt.2 hcl)
        · exact absurd hres (by simp)
    · next best hbestmax =>
      have hbp : best.1 = p := by
        split at hres <;> simpa using hres
      rcases List.mem_filter.1 (argmaxFirst_mem hbestmax) with ⟨hmem, hposb⟩
      have hpos : best.2 > 0 := of_decide_eq_true hposb
      rcases List.mem_map.1 hmem with ⟨q, _, heq⟩
      have h2 : best.2 = scoreProvider jsLog sel hc q network now := by
        rw [← heq]
      have h1 : best.1 = q := by rw [← heq]
      rw [h2, h1.symm.trans hbp, hscore] at hpos
      exact lt_irrefl 0 hpos

/-- C2: in auto-select mode (no custom endpoint, no manual selection in
effect) — over any state whose stored records are never `untested`, which
holds of every reachable checker state since `testProvider` and the marks
only ever store `testing`/`available`/`degraded`/`stale`/`offline` —
`getBestProvider` never returns a provider whose current health record has
`success = false` with `lastTested` inside the 30-second cooldown window. -/
theorem selector_never_returns_cooldown_failed (jsLog : ℚ → ℚ) (reg : Registry)
    (hc : HealthChecker) (sel : SelectorState) (network : Network) (now : ℤ)
    (p : ResolvedProvider)
    (hcust : sel.customEndpoint = none)
    (hauto : sel.autoSelect = true ∨ sel.selectedProviderId = none)
    (hunt : ∀ k r, hc.results k = some r → r.status ≠ .untested)
    (hres : (getBestProvider jsLog reg hc sel network now).1 = some p) :
    ∀ r, hc.getResult p.id network = some r → ¬ failedInCooldown now r := by
  intro r hr
  unfold getBestProvider at hres
  rw [if_neg (by simp [hcust, jsTruthyOptStr])] at hres
  have hmanual : (!sel.autoSelect && jsTruthyOptStr sel.selectedProviderId) = false := by
    rcases hauto with h | h
    · simp [h]
    · simp [h, jsTruthyOptStr]
  rw [if_neg (by simp [hmanual])] at hres
  dsimp only at hres
  cases hbp : sel.bestProviderByNetwork network with
  | none =>
    rw [hbp] at hres
    exact findBestProvider_no_cooldown_failed jsLog reg hc sel network now p
      hunt hres r hr
  | some cachedBestId =>
    rw [hbp] at hres
    dsimp only at hres
    split at hres
    · next hcond =>
      have hp1 : reg.getProvider cachedBestId = some p := by simpa using hres
      have hid : p.id = cachedBestId := by
        have := List.find?_some hp1
        exact of_decide_eq_true this
      cases hcached : reg.getProvider cachedBestId with
      | none => rw [hcached] at hp1; exact absurd hp1 (by simp)
      | some prov =>
        cases hhealth : hc.getResult cachedBestId network with
        | none =>
          rw [hcached, hhealth] at hcond
          exact absurd hcond (by simp)
        | some h =>
          rw [hcached, hhealth] at hcond
          have hsucc : h.success = true := by
            have hc2 := hcond
            simp only [Bool.and_eq_true] at hc2
            exact hc2.1
          rw [hid] at hr
          rw [hhealth] at hr
          cases Option.some.inj hr
          intro hbad
          rw [hbad.1] at hsucc
          exact Bool.false_ne_true hsucc
    · exact findBestProvider_no_cooldown_failed jsLog reg hc _ network now p
        hunt hres r hr

/-- Concrete evaluation: over `regP1` with an empty checker, auto-selection
picks `provP1` (the only candidate, scoring `0.01` as untested). -/
lemma getBest_auto_eval :
    (getBestProvider jsLog0 regP1 hcEmpty selAuto Network.testnet 0).1 =
      some provP1 := by
  norm_num [getBestProvider, findBestProvider, selAuto, regP1, provP1, hcEmpty,
    scoreProvider, argmaxFirst, jsTruthyOptStr, Registry.getProvidersForNetwork,
    HealthChecker.getResult, List.filter, SelectorState.setActive]
  decide

/-- Witness for `selector_never_returns_cooldown_failed` over `regP1` with an
empty checker. -/
theorem selector_never_returns_cooldown_failed_witness :
    selAuto.customEndpoint = none ∧
    (selAuto.autoSelect = true ∨ selAuto.selectedProviderId = none) ∧
    (∀ k r, hcEmpty.results k = some r → r.status ≠ .untested) ∧
    (getBestProvider jsLog0 regP1 hcEmpty selAuto Network.testnet 0).1 =
      some provP1 ∧
    (∀ r, hcEmpty.getResult provP1.id Network.testnet = some r →
      ¬ failedInCooldown 0 r) :=
  ⟨rfl, Or.inl rfl, fun k r h => absurd h (by simp [hcEmpty]), getBest_auto_eval,
    selector_never_returns_cooldown_failed jsLog0 regP1 hcEmpty selAuto
      Network.testnet 0 provP1 rfl (Or.inl rfl)
      (fun k r h => absurd h (by simp [hcEmpty])) getBest_auto_eval⟩

/-! ## C9 — idempotence of `normalizeV2Endpoint` -/

/-- C9 counterexample: the `/api/v3` branch rewrites only the *first*
occurrence, so `"http://x/api/v3/api/v3"` normalizes to
`"http://x/api/v2/jsonRPC/api/v3"`, which still ends in `/api/v3` and is
rewritten again by a second application. -/
theorem normalize_not_idempotent :
    normalizeV2Endpoint (fun _ => none)
        (normalizeV2Endpoint (fun _ => none) "http://x/api/v3/api/v3".toList) ≠
      normalizeV2Endpoint (fun _ => none) "http://x/api/v3/api/v3".toList := by
  decide

/-- A singleton list is a prefix exactly of lists with that head. -/
lemma singleton_prefix_iff {c : Char} {l : Str} : [c] <+: l ↔ l.head? = some c := by
  constructor
  · rintro ⟨t, rfl⟩
    rfl
  · cases l with
    | nil => intro h; exact absurd h (by simp)
    | cons a t =>
      intro h
      rw [List.head?_cons, Option.some.injEq] at h
      exact ⟨t, by rw [h]; rfl⟩

/-- `dropWhile` is the identity when the head (if any) fails the predicate. -/
lemma dropWhile_eq_self_of_head (p : Char → Bool) (l : Str)
    (h : ∀ c, l.head? = some c → p c = false) : l.dropWhile p = l := by
  cases l with
  | nil => rfl
  | cons a t => rw [List.dropWhile_cons, h a rfl]; simp

/-- Conversely, a `dropWhile` fixed point has a head failing the predicate. -/
lemma head_false_of_dropWhile_eq_self (p : Char → Bool) (l : Str)
    (h : l.dropWhile p = l) : ∀ c, l.head? = some c → p c = false := by
  intro c hc
  cases l with
  | nil => exact absurd hc (by simp)
  | cons a t =>
    rw [List.head?_cons, Option.some.injEq] at hc
    subst hc
    by_contra hp
    rw [List.dropWhile_cons, if_pos (by simpa using hp)] at h
    have := congrArg List.length h
    have hle := (List.dropWhile_suffix (l := t) p).length_le
    simp at this
    omega

/-- `dropWhile` fixed points are closed under `take`. -/
lemma dropWhile_eq_self_take (p : Char → Bool) (l : Str) (n : ℕ)
    (h : l.dropWhile p = l) : (l.take n).dropWhile p = l.take n := by
  apply dropWhile_eq_self_of_head
  intro c hc
  cases l with
  | nil => simp at hc
  | cons a t =>
    cases n with
    | zero => simp at hc
    | succ m =>
      rw [List.take_succ_cons, List.head?_cons, Option.some.injEq] at hc
      subst hc
      exact head_false_of_dropWhile_eq_self p _ h a rfl

/-- `dropWhile` fixed points absorb right-appended strings whose head fails
the predicate. -/
lemma dropWhile_eq_self_append (p : Char → Bool) (a b : Str)
    (ha : a.dropWhile p = a) (hb : ∀ c, b.head? = some c → p c = false) :
    (a ++ b).dropWhile p = a ++ b := by
  apply dropWhile_eq_self_of_head
  intro c hc
  rw [List.head?_append] at hc
  cases ha0 : a.head? with
  | none =>
    rw [ha0, Option.none_or] at hc
    exact hb c hc
  | some a0 =>
    rw [ha0] at hc
    cases Option.some.inj hc
    exact head_false_of_dropWhile_eq_self p a ha c ha0

/-- `trimEnd` is the identity on strings whose last character is not
whitespace. -/
lemma trimEnd_eq_self_of_last (s : Str)
    (h : ∀ c, s.reverse.head? = some c → Char.isWhitespace c = false) :
    trimEnd s = s := by
  unfold trimEnd
  rw [dropWhile_eq_self_of_head _ _ h, List.reverse_reverse]

/-- `trimEnd` absorbs a right-appended non-empty literal whose last
character is not whitespace. -/
lemma trimEnd_append_of_last (a b : Str) (hb : b ≠ [])
    (h : ∀ c, b.reverse.head? = some c → Char.isWhitespace c = false) :
    trimEnd (a ++ b) = a ++ b := by
  apply trimEnd_eq_self_of_last
  intro c hc
  rw [List.reverse_append, List.head?_append] at hc
  cases hb0 : b.reverse.head? with
  | none =>
    rw [List.head?_eq_none_iff] at hb0
    exact absurd (by simpa using congrArg List.reverse hb0) hb
  | some b0 =>
    rw [hb0] at hc
    cases Option.some.inj hc
    exact h _ hb0

/-- `stripTrailSlash` is the identity on strings not ending in `/`. -/
lemma stripTrailSlash_eq_self (s : Str)
    (h : ∀ c, s.reverse.head? = some c → c ≠ '/') :
    stripTrailSlash s = s := by
  unfold stripTrailSlash jsEndsWith
  rw [if_neg]
  intro hsuf
  have hs : ['/'] <:+ s := List.isSuffixOf_iff_suffix.1 hsuf
  have : ['/'] <+: s.reverse := by
    have h2 := List.reverse_prefix.2 hs
    simpa using h2
  exact h '/' (singleton_prefix_iff.1 this) rfl

/-- The last character of `a ++ b` is the last character of a non-empty
`b`. -/
lemma reverse_head_append (a b : Str) (b0 : Char)
    (hb : b.reverse.head? = some b0) :
    (a ++ b).reverse.head? = some b0 := by
  rw [List.reverse_append, List.head?_append, hb]
  rfl

/-- `replaceFirst` on a string whose only occurrence of the (non-empty)
pattern is its suffix replaces exactly that suffix. -/
lemma replaceFirst_of_unique_suffix (pat repl : Str) (hpat : pat ≠ []) :
    ∀ t, pat <:+ t → ¬ pat <:+: t.dropLast →
      replaceFirst pat repl t = t.take (t.length - pat.length) ++ repl := by
  intro t
  induction t with
  | nil =>
    intro hsuf _
    exact absurd (List.eq_nil_of_suffix_nil hsuf) hpat
  | cons c rest ih =>
    intro hsuf hno
    by_cases hpre : pat.isPrefixOf (c :: rest) = true
    · rw [replaceFirst, if_pos hpre]
      obtain ⟨tail, htail⟩ := List.isPrefixOf_iff_prefix.1 hpre
      cases tail with
      | nil =>
        rw [List.append_nil] at htail
        rw [← htail]
        simp
      | cons d tl =>
        exfalso
        apply hno
        have hdl : (c :: rest).dropLast = pat ++ (d :: tl).dropLast := by
          rw [← htail, List.dropLast_append_cons]
        rw [hdl]
        exact (List.prefix_append pat _).isInfix
    · rw [replaceFirst, if_neg hpre]
      obtain ⟨pre, hp⟩ := hsuf
      cases pre with
      | nil =>
        exfalso
        apply hpre
        rw [List.isPrefixOf_iff_prefix]
        exact ⟨[], by simpa using hp⟩
      | cons x xs =>
        have hx : x = c ∧ xs ++ pat = rest := by
          constructor
          · exact (List.cons.inj hp).1
          · exact (List.cons.inj hp).2
        have hsuf' : pat <:+ rest := ⟨xs, hx.2⟩
        have hrest_ne : rest ≠ [] := by
          intro h0
          rw [h0] at hsuf'
          exact hpat (List.eq_nil_of_suffix_nil hsuf')
        have hno' : ¬ pat <:+: rest.dropLast := by
          intro hinf
          apply hno
          have hcons : (c :: rest).dropLast = c :: rest.dropLast := by
            cases rest with
            | nil => exact absurd rfl hrest_ne
            | cons r rs => rfl
          rw [hcons]
          exact List.infix_cons hinf
        rw [ih hsuf' hno']
        have hlen : pat.length ≤ rest.length := hsuf'.length_le
        have hsub : (c :: rest).length - pat.length =
            (rest.length - pat.length) + 1 := by
          simp only [List.length_cons]
          omega
        rw [hsub, List.take_succ_cons]
        simp

/-- `normalizeV2Endpoint` fixes any already-trimmed, non-slash-terminated
string ending (case-insensitively) in `/jsonrpc`. -/
lemma normalize_fix_plain (u : Str → Option Bool) (r : Str)
    (h1 : r.dropWhile Char.isWhitespace = r) (h2 : trimEnd r = r)
    (h3 : stripTrailSlash r = r)
    (hjs : jsEndsWith (lowerStr r) "/jsonrpc".toList = true) :
    normalizeV2Endpoint u r = r := by
  have hjt : jsTrim r = r := by
    unfold jsTrim trimStart
    rw [h1, h2]
  simp only [normalizeV2Endpoint]
  rw [hjt, h3, if_pos hjs]

/-- `normalizeV2Endpoint` fixes `a ++ "/jsonRPC"` whenever `a` has no
leading whitespace. -/
lemma normalize_fix_jsonRPC (u : Str → Option Bool) (a : Str)
    (ha : a.dropWhile Char.isWhitespace = a) :
    normalizeV2Endpoint u (a ++ "/jsonRPC".toList) = a ++ "/jsonRPC".toList := by
  apply normalize_fix_plain
  · apply dropWhile_eq_self_append _ _ _ ha
    intro c hc
    have hh : ("/jsonRPC".toList).head? = some '/' := by decide
    rw [hh] at hc
    cases Option.some.inj hc
    decide
  · apply trimEnd_append_of_last _ _ (by decide)
    intro c hc
    have hh : (("/jsonRPC".toList).reverse).head? = some 'C' := by decide
    rw [hh] at hc
    cases Option.some.inj hc
    decide
  · apply stripTrailSlash_eq_self
    intro c hc
    have hh := reverse_head_append a "/jsonRPC".toList 'C' (by decide)
    rw [hh] at hc
    cases Option.some.inj hc
    decide
  · show ("/jsonrpc".toList).isSuffixOf (lowerStr (a ++ "/jsonRPC".toList)) = true
    rw [List.isSuffixOf_iff_suffix]
    unfold lowerStr
    rw [List.map_append,
      show ("/jsonRPC".toList).map Char.toLower = "/jsonrpc".toList from by decide]
    exact List.suffix_append _ _

/-- C9 (amended): `normalizeV2Endpoint` is idempotent on every input whose
trimmed, slash-stripped form `t` (i) has no leading or trailing whitespace,
(ii) does not end in `/`, and (iii) contains `/api/v3`, if at all as a
suffix, only as that suffix.  (Idempotence fails in general — see the
counterexample — exactly because stripping one slash can expose trailing
whitespace or a second slash, and the `/api/v3` rule rewrites the first
occurrence while testing the last.) -/
theorem normalize_idempotent_amended (u : Str → Option Bool) (x : Str)
    (h1 : (stripTrailSlash (jsTrim x)).dropWhile Char.isWhitespace =
      stripTrailSlash (jsTrim x))
    (h2 : trimEnd (stripTrailSlash (jsTrim x)) = stripTrailSlash (jsTrim x))
    (h3 : stripTrailSlash (stripTrailSlash (jsTrim x)) = stripTrailSlash (jsTrim x))
    (h4 : jsEndsWith (stripTrailSlash (jsTrim x)) "/api/v3".toList = true →
      ¬ "/api/v3".toList <:+: (stripTrailSlash (jsTrim x)).dropLast) :
    normalizeV2Endpoint u (normalizeV2Endpoint u x) = normalizeV2Endpoint u x := by
  set t := stripTrailSlash (jsTrim x) with htdef
  have hjt : jsTrim t = t := by
    unfold jsTrim trimStart
    rw [h1, h2]
  by_cases hjs : jsEndsWith (lowerStr t) "/jsonrpc".toList = true
  · have hnx : normalizeV2Endpoint u x = t := by
      simp only [normalizeV2Endpoint]
      rw [← htdef, if_pos hjs]
    rw [hnx]
    exact normalize_fix_plain u t h1 h2 h3 hjs
  · by_cases hv2 : jsEndsWith t "/api/v2".toList = true
    · have hnx : normalizeV2Endpoint u x = t ++ "/jsonRPC".toList := by
        simp only [normalizeV2Endpoint]
        rw [← htdef, if_neg hjs, if_pos hv2]
      rw [hnx]
      exact normalize_fix_jsonRPC u t h1
    · by_cases hv3 : jsEndsWith t "/api/v3".toList = true
      · have hsuf : "/api/v3".toList <:+ t := List.isSuffixOf_iff_suffix.1 hv3
        have hrf := replaceFirst_of_unique_suffix "/api/v3".toList
          "/api/v2/jsonRPC".toList (by decide) t hsuf (h4 hv3)
        have hnx : normalizeV2Endpoint u x =
            t.take (t.length - ("/api/v3".toList).length) ++
              "/api/v2/jsonRPC".toList := by
          simp only [normalizeV2Endpoint]
          rw [← htdef, if_neg hjs, if_neg hv2, if_pos hv3, hrf]
        rw [hnx,
          show ("/api/v2/jsonRPC".toList : Str) =
            "/api/v2".toList ++ "/jsonRPC".toList from by decide,
          ← List.append_assoc]
        apply normalize_fix_jsonRPC
        apply dropWhile_eq_self_append _ _ _ (dropWhile_eq_self_take _ t _ h1)
        intro c hc
        have hh : ("/api/v2".toList).head? = some '/' := by decide
        rw [hh] at hc
        cases Option.some.inj hc
        decide
      · have hnx : normalizeV2Endpoint u x =
            (match u t with
             | some true => t ++ "/jsonRPC".toList
             | _ => t) := by
          simp only [normalizeV2Endpoint]
          rw [← htdef, if_neg hjs, if_neg hv2, if_neg hv3]
        cases hurl : u t with
        | some b =>
          cases b with
          | true =>
            rw [hnx, hurl]
            exact normalize_fix_jsonRPC u t h1
          | false =>
            rw [hnx, hurl]
            simp only [normalizeV2Endpoint]
            rw [hjt, h3, if_neg hjs, if_neg hv2, if_neg hv3, hurl]
        | none =>
          rw [hnx, hurl]
          simp only [normalizeV2Endpoint]
          rw [hjt, h3, if_neg hjs, if_neg hv2, if_neg hv3, hurl]

/-- Witness for `normalize_idempotent_amended` at a plain `/api/v2` URL. -/
theorem normalize_idempotent_amended_witness :
    ((stripTrailSlash (jsTrim "https://a.com/api/v2".toList)).dropWhile
        Char.isWhitespace = stripTrailSlash (jsTrim "https://a.com/api/v2".toList)) ∧
    (trimEnd (stripTrailSlash (jsTrim "https://a.com/api/v2".toList)) =
      stripTrailSlash (jsTrim "https://a.com/api/v2".toList)) ∧
    (stripTrailSlash (stripTrailSlash (jsTrim "https://a.com/api/v2".toList)) =
      stripTrailSlash (jsTrim "https://a.com/api/v2".toList)) ∧
    (jsEndsWith (stripTrailSlash (jsTrim "https://a.com/api/v2".toList))
        "/api/v3".toList = true →
      ¬ "/api/v3".toList <:+:
        (stripTrailSlash (jsTrim "https://a.com/api/v2".toList)).dropLast) ∧
    normalizeV2Endpoint (fun _ => none)
        (normalizeV2Endpoint (fun _ => none) "https://a.com/api/v2".toList) =
      normalizeV2Endpoint (fun _ => none) "https://a.com/api/v2".toList :=
  ⟨by decide, by decide, by decide, fun h => absurd h (by decide),
    normalize_idempotent_amended (fun _ => none) "https://a.com/api/v2".toList
      (by decide) (by decide) (by decide) (fun h => absurd h (by decide))⟩
